import Mathlib

/-!
# Youtu Go SDK: request dispatch layer

A shallow embedding of `youtu.go` and `net.go` (package `youtu`), and theorems
about endpoint routing, credential validation, the transport outcome, error
propagation, the image-or-url selection of the per-operation wrappers, the
wire format of a request and the decoding of a reply into a response struct.

Conventions of the embedding.

* A Go `string` and a Go `[]byte` are both finite byte sequences, `List UInt8`;
  `len` is `List.length`, the conversions `string(b)` and `[]byte(s)` are the
  identity, a `nil` byte slice is `[]`. A slice of another type is a `Slice`,
  which keeps `nil` apart from the empty slice.
* A Go `int` (64 bits), `int32` or `detectMode` is an `Int`; a `uint32` is a
  `Nat`, so `int(x)` of a `uint32` is `Int.ofNat x`. No arithmetic is done on
  any of them.
* A Go `error` is `Option GoError`, `none` being `nil`.
* A Go function with several results returns a structure or a pair holding all
  of them, as Go does (a failing call still returns its other results).
* What the Go standard library and the network do (URL parsing, the HTTP round
  trip, the JSON text codec, `%#v`) is a parameter: the fields of `Env` and of
  `ReqType` / `RspType`. For `DetectFaceRsp` and `NamecardOcrRsp` the decoder
  is given: the scanner of the text stays a parameter (`JSONText`), and the
  members of the scanned object go into the fields that the `json` tags of the
  source name, by the rules of `encoding/json`.
-/

namespace GoSdk

/-! ## Go strings, byte slices, errors -/

/-- A Go `string`: an immutable sequence of bytes. -/
abbrev GoString := List UInt8

/-- A Go `[]byte`. -/
abbrev Bytes := List UInt8

/-- The bytes of a string literal of the source (Go source text is UTF-8). -/
def lit (s : String) : GoString := s.data.flatMap String.utf8EncodeChar

/-- A Go `error` value, with the text its `Error()` method returns. -/
structure GoError where
  msg : GoString
deriving DecidableEq, Repr

/-- The function `errors.New`. -/
def errorsNew (text : GoString) : GoError := ⟨text⟩

/-- The function `fmt.Errorf`, applied to the formatted text. -/
def fmtErrorf (text : GoString) : GoError := ⟨text⟩

/-- The method `Error()` of an error value. -/
def GoError.Error (e : GoError) : GoString := e.msg

/-! ## Decimal formatting (`%d`, `strconv.Itoa`) -/

/-- The ASCII digit of `d < 10`. -/
def digitByte (d : Nat) : UInt8 := UInt8.ofNat (48 + d)

/-- Decimal digits of `n`, most significant first; `fuel` bounds the number of digits. -/
def decDigits : Nat → Nat → GoString
  | 0, _ => []
  | fuel + 1, n =>
    if n < 10 then [digitByte n] else decDigits fuel (n / 10) ++ [digitByte (n % 10)]

/-- Decimal text of a natural number. -/
def formatNat (n : Nat) : GoString := decDigits (n + 1) n

/-- Decimal text of a Go `int`, as `%d` and `strconv.Itoa` print it. -/
def formatInt (i : Int) : GoString :=
  if i < 0 then lit "-" ++ formatNat (-i).toNat else formatNat i.toNat

/-- The number a decimal text denotes. -/
def decValue (s : GoString) : Nat := s.foldl (fun acc c => acc * 10 + (c.toNat - 48)) 0

/-! ## Standard base64 (`base64.StdEncoding.EncodeToString`) -/

/-- The alphabet of `base64.StdEncoding`. -/
def encodeStd : GoString :=
  lit "ABCDEFGHIJKLMNOPQRSTUVWXYZabcdefghijklmnopqrstuvwxyz0123456789+/"

/-- The padding character of `base64.StdEncoding`. -/
def StdPadding : UInt8 := 61

/-- The alphabet letter of a 6-bit value. -/
def b64Char (v : Nat) : UInt8 := encodeStd.getD (v % 64) 0

/-- The function `base64.StdEncoding.EncodeToString`: every 3 source bytes give 4 letters;
a remainder of 1 or 2 bytes gives 2 or 3 letters and padding up to 4. -/
def EncodeToString : Bytes → GoString
  | [] => []
  | [a] =>
    let v := a.toNat * 65536
    [b64Char (v / 262144), b64Char (v / 4096), StdPadding, StdPadding]
  | [a, b] =>
    let v := a.toNat * 65536 + b.toNat * 256
    [b64Char (v / 262144), b64Char (v / 4096), b64Char (v / 64), StdPadding]
  | a :: b :: c :: rest =>
    let v := a.toNat * 65536 + b.toNat * 256 + c.toNat
    b64Char (v / 262144) :: b64Char (v / 4096) :: b64Char (v / 64) :: b64Char v ::
      EncodeToString rest

/-! ## `youtu.go`: credential and client -/

/-- The constant `UserIDMaxLen`. -/
def UserIDMaxLen : Nat := 110

/-- The constant `expiredInterval`. -/
def expiredInterval : Int := 1000

/-- The variable `ErrUserIDTooLong`. -/
def ErrUserIDTooLong : GoError := errorsNew (lit "user id too long")

/-- The variable `DefaultHost`. -/
def DefaultHost : GoString := lit "http://api.youtu.qq.com"

/-- The variable `TencentYunHost`. -/
def TencentYunHost : GoString := lit "https://youtu.api.qcloud.com"

/-- The struct `AppSign`; `appID` is a `uint32`. -/
structure AppSign where
  appID : Nat
  secretID : GoString
  secretKey : GoString
  userID : GoString
deriving DecidableEq, Repr

/-- The zero value of `AppSign`. -/
def AppSign.zero : AppSign := ⟨0, [], [], []⟩

/-- The function `NewAppSign`, with its two results `(as, err)`. -/
def NewAppSign (appID : Nat) (secretID secretKey userID : GoString) :
    AppSign × Option GoError :=
  if userID.length > UserIDMaxLen then
    (AppSign.zero, some ErrUserIDTooLong)
  else
    ({ appID := appID, secretID := secretID, secretKey := secretKey, userID := userID }, none)

/-- The struct `Youtu`. -/
structure Youtu where
  appSign : AppSign
  host : GoString
  debug : Bool
deriving DecidableEq, Repr

/-- The method `Youtu.appID`. -/
def Youtu.appID (y : Youtu) : GoString := formatInt (Int.ofNat y.appSign.appID)

/-- The function `Init`. -/
def Init (appSign : AppSign) (host : GoString) : Youtu :=
  { appSign := appSign, host := host, debug := false }

/-- The method `Youtu.SetDebug`. -/
def Youtu.SetDebug (y : Youtu) (isDebug : Bool) : Youtu := { y with debug := isDebug }

/-! ## `net.go`: endpoint routing -/

/-- The method `Youtu.interfaceURL`. -/
def Youtu.interfaceURL (y : Youtu) (ifname : GoString) (urltype : Int) : GoString :=
  if urltype = 0 then
    y.host ++ lit "/youtu/api/" ++ ifname
  else if urltype = 1 then
    y.host ++ lit "/youtu/imageapi/" ++ ifname
  else
    y.host ++ lit "/youtu/ocrapi/" ++ ifname

/-! ## `net.go`: the world outside the package -/

/-- A Go `time.Duration`, in nanoseconds. -/
abbrev Duration := Int

/-- The constant `time.Second`. -/
def Second : Duration := 1000000000

/-- The struct `http.Client`, as far as `get` configures it. -/
structure HttpClient where
  Timeout : Duration
deriving DecidableEq, Repr

/-- The struct `http.Request`, as far as `get` builds it: `Header` lists the (key, value) pairs in
the order `Header.Add` appended them. -/
structure HttpRequest where
  Method : GoString
  URL : GoString
  Body : GoString
  Header : List (GoString × GoString)
deriving DecidableEq, Repr

/-- The method `Header.Add` of a request header: appends the value under the key. -/
def HttpRequest.HeaderAdd (r : HttpRequest) (key value : GoString) : HttpRequest :=
  { r with Header := r.Header ++ [(key, value)] }

/-- The struct `http.Response`, as far as `get` reads it: the status code and the body stream,
given by the bytes it delivers and the error that ends it (`none` for a clean end of stream). -/
structure HttpResponse where
  StatusCode : Int
  Body : Bytes
  BodyErr : Option GoError
deriving DecidableEq, Repr

/-- The function `ioutil.ReadAll` on a response body: the bytes read and the error met, if any. -/
def ReadAll (resp : HttpResponse) : Bytes × Option GoError := (resp.Body, resp.BodyErr)

/-- What the program does to the outside, in order. -/
inductive Event
  | stdout (text : GoString)
  | stderr (text : GoString)
  | send (client : HttpClient) (req : HttpRequest)
deriving DecidableEq, Repr

/-- Modelled from the spec: the method `Youtu.sign` is not among the sources; the spec gives it
as `sign(credential, now) -> token string`, a stateless function of the credential and the clock
that deterministically derives the authorization token. -/
structure Signer where
  token : AppSign → Int → GoString

/-- A Go slice whose `nil` matters (`encoding/json` prints `null` for `nil`, `[]` for an empty
one): `none` is `nil`. -/
abbrev Slice (α : Type) := Option (List α)

/-- The function `len` on a slice. -/
def Slice.len {α : Type} (s : Slice α) : Nat := (s.getD []).length

/-- The value of a field of a request struct. -/
inductive FieldValue
  | string (s : GoString)
  | int (i : Int)
  | bool (b : Bool)
  | strings (l : Slice GoString)
deriving DecidableEq, Repr

/-- The world a call runs in: the clock, the signer, the printers of `encoding/json` and `fmt`, the
address check of `http.NewRequest` and the network behind `client.Do`. -/
structure Env where
  /-- Unix time at the moment of signing. -/
  now : Int
  /-- The signing scheme behind `Youtu.sign`. -/
  signer : Signer
  /-- The text `encoding/json` prints for an object with the given members, in order. -/
  jsonObject : List (GoString × FieldValue) → Bytes
  /-- The text `%#v` prints for a struct value, given its type name and its fields. -/
  goSyntax : GoString → List (GoString × FieldValue) → GoString
  /-- The error `http.NewRequest` reports for an address, `none` when it accepts it. -/
  urlParse : GoString → Option GoError
  /-- The method `client.Do`: a network error, or the reply. -/
  Do : HttpClient → HttpRequest → Except GoError HttpResponse

/-- The method `Youtu.sign`, through the signer of the environment. -/
def Youtu.sign (env : Env) (y : Youtu) : GoString := env.signer.token y.appSign env.now

/-- The function `http.NewRequest`. -/
def NewRequest (env : Env) (method url body : GoString) : Except GoError HttpRequest :=
  match env.urlParse url with
  | some e => .error e
  | none => .ok { Method := method, URL := url, Body := body, Header := [] }

/-- The two results `(rsp, err)` of `Youtu.get`, and what it did. -/
structure GetResult where
  rsp : Bytes
  err : Option GoError
  trace : List Event
deriving DecidableEq, Repr

/-- The method `Youtu.get`. -/
def Youtu.get (env : Env) (y : Youtu) (addr req : GoString) : GetResult :=
  let client : HttpClient := { Timeout := 5 * Second }
  match NewRequest env (lit "POST") addr req with
  | .error e => { rsp := [], err := some e, trace := [] }
  | .ok httpreq =>
    let auth := y.sign env
    let t := if y.debug then [Event.stderr (lit "Authorization: " ++ auth ++ lit "\n")] else []
    let httpreq := httpreq.HeaderAdd (lit "Authorization") auth
    let httpreq := httpreq.HeaderAdd (lit "Content-Type") (lit "text/json")
    let httpreq := httpreq.HeaderAdd (lit "User-Agent") (lit "")
    let httpreq := httpreq.HeaderAdd (lit "Accept") (lit "*/*")
    let httpreq := httpreq.HeaderAdd (lit "Expect") (lit "100-continue")
    let t := t ++ [Event.send client httpreq]
    match env.Do client httpreq with
    | .error e => { rsp := [], err := some e, trace := t }
    | .ok resp =>
      if resp.StatusCode ≠ 200 then
        let errStr := lit "httperrorcode: " ++ formatInt resp.StatusCode ++ lit " \n"
        { rsp := [], err := some (errorsNew errStr), trace := t }
      else
        let (rsp, err) := ReadAll resp
        { rsp := rsp, err := err, trace := t }

/-- What `fmt` and `encoding/json` do with a request value of type `α`. -/
structure ReqType (α : Type) where
  /-- The verb `%#v`. -/
  goSyntax : α → GoString
  /-- The function `json.Marshal`. -/
  jsonMarshal : α → Except GoError Bytes

/-- What `fmt` and `encoding/json` do with a pointer to a response value of type `β`. -/
structure RspType (β : Type) where
  /-- The verb `%#v`. -/
  goSyntax : β → GoString
  /-- The function `json.Unmarshal` into the value: the value it leaves and its error. -/
  jsonUnmarshal : Bytes → β → β × Option GoError

/-- The result `err` of a call through `interfaceRequest`, the response value the call leaves
behind the pointer `rsp`, and what the call did. -/
structure CallResult (β : Type) where
  rsp : β
  err : Option GoError
  trace : List Event

/-- The method `Youtu.interfaceRequest`; `rsp` is the value behind the response pointer. -/
def Youtu.interfaceRequest {α β : Type} (env : Env) (Q : ReqType α) (R : RspType β) (y : Youtu)
    (ifname : GoString) (req : α) (rsp : β) (urltype : Int) : CallResult β :=
  let url := y.interfaceURL ifname urltype
  let t := if y.debug then [Event.stdout (lit "req: " ++ Q.goSyntax req ++ lit "\n")] else []
  match Q.jsonMarshal req with
  | .error e => { rsp := rsp, err := some e, trace := t }
  | .ok data =>
    let g := y.get env url data
    match g.err with
    | some e => { rsp := rsp, err := some e, trace := t ++ g.trace }
    | none =>
      let body := g.rsp
      let (rsp, uerr) := R.jsonUnmarshal body rsp
      match uerr with
      | some e =>
        let t2 := if y.debug then [Event.stderr (lit "body:" ++ body ++ lit "\n")] else []
        { rsp := rsp,
          err := some (fmtErrorf (lit "json.Unmarshal() rsp: " ++ R.goSyntax rsp ++
            lit " failed: " ++ e.Error ++ lit "\n")),
          trace := t ++ g.trace ++ t2 }
      | none => { rsp := rsp, err := none, trace := t ++ g.trace }

/-! ## `youtu.go`: request structs and their JSON tags -/

/-- A field of a request struct as `encoding/json` sees it: the Go name, the key of the `json`
tag, whether the tag says `omitempty`, and the value. -/
structure Field where
  name : GoString
  key : GoString
  omitempty : Bool
  value : FieldValue
deriving DecidableEq, Repr

/-- The empty values of `encoding/json`: `false`, `0`, and a string or slice of length 0. -/
def FieldValue.isEmpty : FieldValue → Bool
  | .string s => s.length == 0
  | .int i => i == 0
  | .bool b => !b
  | .strings l => l.len == 0

/-- The members `json.Marshal` prints for a struct: every field but the empty `omitempty` ones. -/
def jsonMembers (fields : List Field) : List (GoString × FieldValue) :=
  (fields.filter (fun f => !(f.omitempty && f.value.isEmpty))).map (fun f => (f.key, f.value))

/-- The keys of the members `json.Marshal` prints for a struct. -/
def jsonKeys (fields : List Field) : List GoString := (jsonMembers fields).map Prod.fst

/-- The request side of a struct of strings, integers, booleans and string slices: `json.Marshal`
cannot fail on it and prints the members `jsonMembers` keeps. -/
def structReqType {α : Type} (env : Env) (typeName : GoString) (fields : α → List Field) :
    ReqType α where
  goSyntax := fun r => env.goSyntax typeName ((fields r).map (fun f => (f.name, f.value)))
  jsonMarshal := fun r => .ok (env.jsonObject (jsonMembers (fields r)))

/-- The type `detectMode`. -/
abbrev detectMode := Int

/-- The constant `detectModeNormal`. -/
def detectModeNormal : detectMode := 0

/-- The constant `detectModeBigFace`. -/
def detectModeBigFace : detectMode := 1

/-- The function `mode`. -/
def mode (isBigFace : Bool) : detectMode :=
  if isBigFace then detectModeBigFace else detectModeNormal

/-- The struct `detectFaceReq`. -/
structure detectFaceReq where
  AppID : GoString := []
  Image : GoString := []
  Mode : detectMode := 0
  Url : GoString := []
deriving DecidableEq, Repr

/-- The `json` tags of `detectFaceReq`. -/
def detectFaceReq.fields (r : detectFaceReq) : List Field :=
  [⟨lit "AppID", lit "app_id", false, .string r.AppID⟩,
   ⟨lit "Image", lit "image", true, .string r.Image⟩,
   ⟨lit "Mode", lit "mode", true, .int r.Mode⟩,
   ⟨lit "Url", lit "url", true, .string r.Url⟩]

/-- The struct `faceShapeReq`. -/
structure faceShapeReq where
  AppID : GoString := []
  Image : GoString := []
  Mode : detectMode := 0
  Url : GoString := []
deriving DecidableEq, Repr

/-- The `json` tags of `faceShapeReq`. -/
def faceShapeReq.fields (r : faceShapeReq) : List Field :=
  [⟨lit "AppID", lit "app_id", false, .string r.AppID⟩,
   ⟨lit "Image", lit "image", true, .string r.Image⟩,
   ⟨lit "Mode", lit "mode", true, .int r.Mode⟩,
   ⟨lit "Url", lit "url", true, .string r.Url⟩]

/-- The struct `faceCompareReq`. -/
structure faceCompareReq where
  AppID : GoString := []
  ImageA : GoString := []
  ImageB : GoString := []
  UrlA : GoString := []
  UrlB : GoString := []
deriving DecidableEq, Repr

/-- The `json` tags of `faceCompareReq`. -/
def faceCompareReq.fields (r : faceCompareReq) : List Field :=
  [⟨lit "AppID", lit "app_id", false, .string r.AppID⟩,
   ⟨lit "ImageA", lit "imageA", true, .string r.ImageA⟩,
   ⟨lit "ImageB", lit "imageB", true, .string r.ImageB⟩,
   ⟨lit "UrlA", lit "urlA", true, .string r.UrlA⟩,
   ⟨lit "UrlB", lit "urlB", true, .string r.UrlB⟩]

/-- The struct `faceVerifyReq`; the tag of `Image` has no `omitempty`. -/
structure faceVerifyReq where
  AppID : GoString := []
  Image : GoString := []
  PersonID : GoString := []
  Url : GoString := []
deriving DecidableEq, Repr

/-- The `json` tags of `faceVerifyReq`. -/
def faceVerifyReq.fields (r : faceVerifyReq) : List Field :=
  [⟨lit "AppID", lit "app_id", false, .string r.AppID⟩,
   ⟨lit "Image", lit "image", false, .string r.Image⟩,
   ⟨lit "PersonID", lit "person_id", false, .string r.PersonID⟩,
   ⟨lit "Url", lit "url", true, .string r.Url⟩]

/-- The struct `faceIdentifyReq`. -/
structure faceIdentifyReq where
  AppID : GoString := []
  GroupID : GoString := []
  Image : GoString := []
  Url : GoString := []
deriving DecidableEq, Repr

/-- The `json` tags of `faceIdentifyReq`. -/
def faceIdentifyReq.fields (r : faceIdentifyReq) : List Field :=
  [⟨lit "AppID", lit "app_id", false, .string r.AppID⟩,
   ⟨lit "GroupID", lit "group_id", false, .string r.GroupID⟩,
   ⟨lit "Image", lit "image", true, .string r.Image⟩,
   ⟨lit "Url", lit "url", true, .string r.Url⟩]

/-- The struct `newPersonReq`. -/
structure newPersonReq where
  AppID : GoString := []
  Image : GoString := []
  PersonID : GoString := []
  GroupIDs : Slice GoString := none
  PersonName : GoString := []
  Tag : GoString := []
  Url : GoString := []
deriving DecidableEq, Repr

/-- The `json` tags of `newPersonReq`. -/
def newPersonReq.fields (r : newPersonReq) : List Field :=
  [⟨lit "AppID", lit "app_id", false, .string r.AppID⟩,
   ⟨lit "Image", lit "image", true, .string r.Image⟩,
   ⟨lit "PersonID", lit "person_id", false, .string r.PersonID⟩,
   ⟨lit "GroupIDs", lit "group_ids", false, .strings r.GroupIDs⟩,
   ⟨lit "PersonName", lit "person_name", true, .string r.PersonName⟩,
   ⟨lit "Tag", lit "tag", true, .string r.Tag⟩,
   ⟨lit "Url", lit "url", true, .string r.Url⟩]

/-- The struct `addFaceReq`. -/
structure addFaceReq where
  AppID : GoString := []
  PersonID : GoString := []
  Images : Slice GoString := none
  Tag : GoString := []
  Urls : Slice GoString := none
deriving DecidableEq, Repr

/-- The `json` tags of `addFaceReq`. -/
def addFaceReq.fields (r : addFaceReq) : List Field :=
  [⟨lit "AppID", lit "app_id", false, .string r.AppID⟩,
   ⟨lit "PersonID", lit "person_id", false, .string r.PersonID⟩,
   ⟨lit "Images", lit "images", true, .strings r.Images⟩,
   ⟨lit "Tag", lit "tag", true, .string r.Tag⟩,
   ⟨lit "Urls", lit "urls", true, .strings r.Urls⟩]

/-- The struct `FuzzyDetectReq`. -/
structure FuzzyDetectReq where
  AppID : GoString := []
  Url : GoString := []
  Image : GoString := []
  Seq : GoString := []
deriving DecidableEq, Repr

/-- The `json` tags of `FuzzyDetectReq`. -/
def FuzzyDetectReq.fields (r : FuzzyDetectReq) : List Field :=
  [⟨lit "AppID", lit "app_id", false, .string r.AppID⟩,
   ⟨lit "Url", lit "url", true, .string r.Url⟩,
   ⟨lit "Image", lit "image", true, .string r.Image⟩,
   ⟨lit "Seq", lit "seq", true, .string r.Seq⟩]

/-- The struct `FoodDetectReq`. -/
structure FoodDetectReq where
  AppID : GoString := []
  Url : GoString := []
  Image : GoString := []
  Seq : GoString := []
deriving DecidableEq, Repr

/-- The `json` tags of `FoodDetectReq`. -/
def FoodDetectReq.fields (r : FoodDetectReq) : List Field :=
  [⟨lit "AppID", lit "app_id", false, .string r.AppID⟩,
   ⟨lit "Url", lit "url", true, .string r.Url⟩,
   ⟨lit "Image", lit "image", true, .string r.Image⟩,
   ⟨lit "Seq", lit "seq", true, .string r.Seq⟩]

/-- The struct `ImageTagReq`. -/
structure ImageTagReq where
  AppID : GoString := []
  Url : GoString := []
  Image : GoString := []
  Seq : GoString := []
deriving DecidableEq, Repr

/-- The `json` tags of `ImageTagReq`. -/
def ImageTagReq.fields (r : ImageTagReq) : List Field :=
  [⟨lit "AppID", lit "app_id", false, .string r.AppID⟩,
   ⟨lit "Url", lit "url", true, .string r.Url⟩,
   ⟨lit "Image", lit "image", true, .string r.Image⟩,
   ⟨lit "Seq", lit "seq", true, .string r.Seq⟩]

/-- The struct `ImagePornReq`. -/
structure ImagePornReq where
  AppID : GoString := []
  Url : GoString := []
  Image : GoString := []
  Seq : GoString := []
deriving DecidableEq, Repr

/-- The `json` tags of `ImagePornReq`. -/
def ImagePornReq.fields (r : ImagePornReq) : List Field :=
  [⟨lit "AppID", lit "app_id", false, .string r.AppID⟩,
   ⟨lit "Url", lit "url", true, .string r.Url⟩,
   ⟨lit "Image", lit "image", true, .string r.Image⟩,
   ⟨lit "Seq", lit "seq", true, .string r.Seq⟩]

/-- The struct `IdcardOcrReq`; `CardType` is an `int32`. -/
structure IdcardOcrReq where
  AppID : GoString := []
  Url : GoString := []
  Image : GoString := []
  CardType : Int := 0
  SessionId : GoString := []
deriving DecidableEq, Repr

/-- The `json` tags of `IdcardOcrReq`. -/
def IdcardOcrReq.fields (r : IdcardOcrReq) : List Field :=
  [⟨lit "AppID", lit "app_id", false, .string r.AppID⟩,
   ⟨lit "Url", lit "url", true, .string r.Url⟩,
   ⟨lit "Image", lit "image", true, .string r.Image⟩,
   ⟨lit "CardType", lit "card_type", true, .int r.CardType⟩,
   ⟨lit "SessionId", lit "session_id", true, .string r.SessionId⟩]

/-- The struct `NamecardOcrReq`. -/
structure NamecardOcrReq where
  AppID : GoString := []
  Url : GoString := []
  Image : GoString := []
  RetImage : Bool := false
  SessionId : GoString := []
deriving DecidableEq, Repr

/-- The `json` tags of `NamecardOcrReq`. -/
def NamecardOcrReq.fields (r : NamecardOcrReq) : List Field :=
  [⟨lit "AppID", lit "app_id", false, .string r.AppID⟩,
   ⟨lit "Url", lit "url", true, .string r.Url⟩,
   ⟨lit "Image", lit "image", true, .string r.Image⟩,
   ⟨lit "RetImage", lit "retimage", true, .bool r.RetImage⟩,
   ⟨lit "SessionId", lit "session_id", true, .string r.SessionId⟩]

/-! ## `youtu.go`: response structs -/

/-- A Go `float32`, given by its 32 bits; no arithmetic is done on it. -/
structure GoFloat32 where
  bits : Nat := 0
deriving DecidableEq, Repr

/-- The struct `Face`. -/
structure Face where
  FaceID : GoString := []
  X : Int := 0
  Y : Int := 0
  Width : GoFloat32 := {}
  Height : GoFloat32 := {}
  Gender : Int := 0
  Age : Int := 0
  Expression : Int := 0
  Glass : Bool := false
  Pitch : Int := 0
  Yaw : Int := 0
  Roll : Int := 0
  Beauty : Int := 0
deriving DecidableEq, Repr

/-- The struct `DetectFaceRsp`; the named result `rsp` starts as `{}`, its zero value. -/
structure DetectFaceRsp where
  SessionID : GoString := []
  ImageWidth : Int := 0
  ImageHeight : Int := 0
  Face : Slice Face := none
  ErrorCode : Int := 0
  ErrorMsg : GoString := []
deriving DecidableEq, Repr

/-- The struct `pos`. -/
structure pos where
  X : Int := 0
  Y : Int := 0
deriving DecidableEq, Repr

/-- The struct `FaceShape`. -/
structure FaceShape where
  FaceProfile : Slice pos := none
  LeftEye : Slice pos := none
  RightEye : Slice pos := none
  LeftEyebrow : Slice pos := none
  RightEyebrow : Slice pos := none
  Mouth : Slice pos := none
  Nose : Slice pos := none
deriving DecidableEq, Repr

/-- The struct `FaceShapeRsp`. -/
structure FaceShapeRsp where
  SessionID : GoString := []
  FaceShape : Slice FaceShape := none
  ImageWidth : Int := 0
  ImageHeight : Int := 0
  ErrorCode : Int := 0
  ErrorMsg : GoString := []
deriving DecidableEq, Repr

/-- The struct `FaceCompareRsp`. -/
structure FaceCompareRsp where
  SessionID : GoString := []
  Similarity : GoFloat32 := {}
  ErrorCode : Int := 0
  ErrorMsg : GoString := []
deriving DecidableEq, Repr

/-- The struct `FaceVerifyRsp`. -/
structure FaceVerifyRsp where
  Ismatch : Bool := false
  Confidence : GoFloat32 := {}
  SessionID : GoString := []
  ErrorCode : Int := 0
  ErrorMsg : GoString := []
deriving DecidableEq, Repr

/-- The struct `Candidate`. -/
structure Candidate where
  PersonID : GoString := []
  FaceID : GoString := []
  Confidence : GoFloat32 := {}
  Tag : GoString := []
deriving DecidableEq, Repr

/-- The struct `FaceIdentifyRsp`. -/
structure FaceIdentifyRsp where
  SessionID : GoString := []
  Candidates : Slice Candidate := none
  ErrorCode : Int := 0
  ErrorMsg : GoString := []
deriving DecidableEq, Repr

/-- The struct `NewPersonRsp`. -/
structure NewPersonRsp where
  SessionID : GoString := []
  SucGroup : Int := 0
  SucFace : Int := 0
  PersonID : GoString := []
  FaceID : GoString := []
  GroupIds : Slice GoString := none
  ErrorCode : Int := 0
  ErrorMsg : GoString := []
deriving DecidableEq, Repr

/-- The struct `AddFaceRsp`. -/
structure AddFaceRsp where
  SessionID : GoString := []
  Added : Int := 0
  FaceIDs : Slice GoString := none
  RetCodes : Slice Int := none
  ErrorCode : Int := 0
  ErrorMsg : GoString := []
deriving DecidableEq, Repr

/-- The struct `FuzzyDetectRsp`. -/
structure FuzzyDetectRsp where
  Fuzzy : Bool := false
  FuzzyConfidence : GoFloat32 := {}
  ErrorCode : Int := 0
  ErrorMsg : GoString := []
deriving DecidableEq, Repr

/-- The struct `FoodDetectRsp`. -/
structure FoodDetectRsp where
  Food : Bool := false
  FoodConfidence : GoFloat32 := {}
  ErrorCode : Int := 0
  ErrorMsg : GoString := []
deriving DecidableEq, Repr

/-- The struct `ImageTag`. -/
structure ImageTag where
  TagName : GoString := []
  TagConfidence : Int := 0
deriving DecidableEq, Repr

/-- The struct `ImageTagRsp`. -/
structure ImageTagRsp where
  Seq : GoString := []
  Tags : Slice ImageTag := none
  ErrorCode : Int := 0
  ErrorMsg : GoString := []
deriving DecidableEq, Repr

/-- The struct `ImagePornRsp`. -/
structure ImagePornRsp where
  Seq : GoString := []
  Tags : Slice ImageTag := none
  ErrorCode : Int := 0
  ErrorMsg : GoString := []
deriving DecidableEq, Repr

/-- The struct `IdcardOcrRsp`. -/
structure IdcardOcrRsp where
  SessionId : GoString := []
  Name : GoString := []
  NameConfidenceAll : Slice Int := none
  Sex : GoString := []
  SexConfidenceAll : Slice Int := none
  Nation : GoString := []
  NationConfidenceAll : Slice Int := none
  Birth : GoString := []
  BirthConfidenceAll : Slice Int := none
  Adress : GoString := []
  AddressConfidenceAll : Slice Int := none
  Id : GoString := []
  IdConfidenceAll : Slice Int := none
  FrontImage : GoString := []
  FrontImageConfidenceAll : Slice Int := none
  WaterMask : Int := 0
  WaterMaskConfidenceAll : Slice Int := none
  ValidDate : GoString := []
  ValidDateConfidenceAll : Slice Int := none
  Authority : GoString := []
  AuthorityConfidenceAll : Slice Int := none
  BackImage : GoString := []
  BackImageConfidenceAll : Slice Int := none
  DetailErrorcode : Slice Int := none
  DetailErrormsg : Slice GoString := none
  ErrorCode : Int := 0
  ErrorMsg : GoString := []
deriving DecidableEq, Repr

/-- The struct `NamecardOcrRsp`. -/
structure NamecardOcrRsp where
  SessionId : GoString := []
  Phone : GoString := []
  PhoneConfidence : GoFloat32 := {}
  Name : GoString := []
  NameConfidence : GoFloat32 := {}
  Image : GoString := []
  ErrorCode : Int := 0
  ErrorMsg : GoString := []
deriving DecidableEq, Repr

/-! ## `youtu.go`: the image-bearing operations -/

/-- The request `Youtu.DetectFace` builds: its statements before the call of `interfaceRequest`. -/
def Youtu.detectFaceRequest (y : Youtu) (image : Bytes) (isBigFace : Bool) (imageType : Int)
    : detectFaceReq :=
  let req : detectFaceReq := {}
  let req := { req with AppID := formatInt (Int.ofNat y.appSign.appID) }
  let req := { req with Mode := mode isBigFace }
  if imageType = 0 then
    { req with Image := EncodeToString image }
  else
    { req with Url := image }

/-- The method `Youtu.DetectFace`. -/
def Youtu.DetectFace (env : Env) (R : RspType DetectFaceRsp) (y : Youtu) (image : Bytes)
    (isBigFace : Bool) (imageType : Int) :
    CallResult DetectFaceRsp :=
  y.interfaceRequest env (structReqType env (lit "youtu.detectFaceReq") detectFaceReq.fields) R
    (lit "detectface") (y.detectFaceRequest image isBigFace imageType) {} 0

/-- The request `Youtu.FaceShape` builds: its statements before the call of `interfaceRequest`. -/
def Youtu.faceShapeRequest (y : Youtu) (image : Bytes) (isBigFace : Bool) (imageType : Int)
    : faceShapeReq :=
  let req : faceShapeReq := {}
  let req := { req with AppID := formatInt (Int.ofNat y.appSign.appID) }
  let req := { req with Mode := mode isBigFace }
  if imageType = 0 then
    { req with Image := EncodeToString image }
  else
    { req with Url := image }

/-- The method `Youtu.FaceShape`. -/
def Youtu.FaceShape (env : Env) (R : RspType FaceShapeRsp) (y : Youtu) (image : Bytes) (isBigFace
    : Bool) (imageType : Int) :
    CallResult FaceShapeRsp :=
  y.interfaceRequest env (structReqType env (lit "youtu.faceShapeReq") faceShapeReq.fields) R
    (lit "faceshape") (y.faceShapeRequest image isBigFace imageType) {} 0

/-- The request `Youtu.FaceCompare` builds: its statements before the call of `interfaceRequest`. -/
def Youtu.faceCompareRequest (y : Youtu) (imageA imageB : Bytes) (imageType : Int)
    : faceCompareReq :=
  let req : faceCompareReq := {}
  let req := { req with AppID := y.appID }
  if imageType = 0 then
    let req := { req with ImageA := EncodeToString imageA }
    { req with ImageB := EncodeToString imageB }
  else
    let req := { req with UrlA := imageA }
    { req with UrlB := imageB }

/-- The method `Youtu.FaceCompare`. -/
def Youtu.FaceCompare (env : Env) (R : RspType FaceCompareRsp) (y : Youtu) (imageA imageB : Bytes)
    (imageType : Int) :
    CallResult FaceCompareRsp :=
  y.interfaceRequest env (structReqType env (lit "youtu.faceCompareReq") faceCompareReq.fields) R
    (lit "facecompare") (y.faceCompareRequest imageA imageB imageType) {} 0

/-- The request `Youtu.FaceVerify` builds: its statements before the call of `interfaceRequest`. -/
def Youtu.faceVerifyRequest (y : Youtu) (personID : GoString) (image : Bytes) (imageType : Int)
    : faceVerifyReq :=
  let req : faceVerifyReq := {}
  let req := { req with AppID := y.appID }
  let req := { req with PersonID := personID }
  if imageType = 0 then
    { req with Image := EncodeToString image }
  else
    { req with Url := image }

/-- The method `Youtu.FaceVerify`. -/
def Youtu.FaceVerify (env : Env) (R : RspType FaceVerifyRsp) (y : Youtu) (personID : GoString)
    (image : Bytes) (imageType : Int) :
    CallResult FaceVerifyRsp :=
  y.interfaceRequest env (structReqType env (lit "youtu.faceVerifyReq") faceVerifyReq.fields) R
    (lit "faceverify") (y.faceVerifyRequest personID image imageType) {} 0

/-- The request `Youtu.FaceIdentify` builds: its statements
before the call of `interfaceRequest`. -/
def Youtu.faceIdentifyRequest (y : Youtu) (groupID : GoString) (image : Bytes) (imageType : Int)
    : faceIdentifyReq :=
  let req : faceIdentifyReq := {}
  let req := { req with AppID := y.appID }
  let req := { req with GroupID := groupID }
  if imageType = 0 then
    { req with Image := EncodeToString image }
  else
    { req with Url := image }

/-- The method `Youtu.FaceIdentify`. -/
def Youtu.FaceIdentify (env : Env) (R : RspType FaceIdentifyRsp) (y : Youtu) (groupID : GoString)
    (image : Bytes) (imageType : Int) :
    CallResult FaceIdentifyRsp :=
  y.interfaceRequest env (structReqType env (lit "youtu.faceIdentifyReq") faceIdentifyReq.fields) R
    (lit "faceidentify") (y.faceIdentifyRequest groupID image imageType) {} 0

/-- The request `Youtu.NewPerson` builds: its statements before the call of `interfaceRequest`. -/
def Youtu.newPersonRequest (y : Youtu) (personID : GoString) (personName : GoString)
    (groupIDs : Slice GoString) (image : Bytes) (tag : GoString) (imageType : Int) :
    newPersonReq :=
  let req : newPersonReq := {}
  let req := { req with AppID := y.appID }
  let req := { req with PersonID := personID }
  let req := { req with GroupIDs := groupIDs }
  let req := { req with PersonName := personName }
  let req := { req with Tag := tag }
  if imageType = 0 then
    { req with Image := EncodeToString image }
  else
    { req with Url := image }

/-- The method `Youtu.NewPerson`. -/
def Youtu.NewPerson (env : Env) (R : RspType NewPersonRsp) (y : Youtu) (personID : GoString)
    (personName : GoString) (groupIDs : Slice GoString) (image : Bytes) (tag : GoString)
    (imageType : Int) :
    CallResult NewPersonRsp :=
  y.interfaceRequest env (structReqType env (lit "youtu.newPersonReq") newPersonReq.fields) R
    (lit "newperson") (y.newPersonRequest personID personName groupIDs image tag imageType) {} 0

/-- The request `Youtu.AddFace` builds: its statements before the call of `interfaceRequest`. -/
def Youtu.addFaceRequest (y : Youtu) (personID : GoString) (images : List Bytes) (tag : GoString)
    (imageType : Int) : addFaceReq :=
  let req : addFaceReq := {}
  let req := { req with AppID := y.appID }
  let req := { req with PersonID := personID }
  let req := { req with Tag := tag }
  if imageType = 0 then
    let imageDatas := images.map EncodeToString
    { req with Images := some imageDatas }
  else
    let imageDatas := images.map (fun img => img)
    { req with Urls := some imageDatas }

/-- The method `Youtu.AddFace`. -/
def Youtu.AddFace (env : Env) (R : RspType AddFaceRsp) (y : Youtu) (personID : GoString) (images
    : List Bytes) (tag : GoString) (imageType : Int) :
    CallResult AddFaceRsp :=
  y.interfaceRequest env (structReqType env (lit "youtu.addFaceReq") addFaceReq.fields) R
    (lit "addface") (y.addFaceRequest personID images tag imageType) {} 0

/-- The request `Youtu.FuzzyDetect` builds: its statements before the call of `interfaceRequest`. -/
def Youtu.fuzzyDetectRequest (y : Youtu) (image : Bytes) (imageType : Int) (seq : GoString)
    : FuzzyDetectReq :=
  let req : FuzzyDetectReq := {}
  let req := { req with AppID := y.appID }
  let req := { req with Seq := seq }
  if imageType = 0 then
    { req with Image := EncodeToString image }
  else
    { req with Url := image }

/-- The method `Youtu.FuzzyDetect`. -/
def Youtu.FuzzyDetect (env : Env) (R : RspType FuzzyDetectRsp) (y : Youtu) (image : Bytes)
    (imageType : Int) (seq : GoString) :
    CallResult FuzzyDetectRsp :=
  y.interfaceRequest env (structReqType env (lit "youtu.FuzzyDetectReq") FuzzyDetectReq.fields) R
    (lit "fuzzydetect") (y.fuzzyDetectRequest image imageType seq) {} 1

/-- The request `Youtu.FoodDetect` builds: its statements before the call of `interfaceRequest`. -/
def Youtu.foodDetectRequest (y : Youtu) (image : Bytes) (imageType : Int) (seq : GoString)
    : FoodDetectReq :=
  let req : FoodDetectReq := {}
  let req := { req with AppID := y.appID }
  let req := { req with Seq := seq }
  if imageType = 0 then
    { req with Image := EncodeToString image }
  else
    { req with Url := image }

/-- The method `Youtu.FoodDetect`. -/
def Youtu.FoodDetect (env : Env) (R : RspType FoodDetectRsp) (y : Youtu) (image : Bytes)
    (imageType : Int) (seq : GoString) :
    CallResult FoodDetectRsp :=
  y.interfaceRequest env (structReqType env (lit "youtu.FoodDetectReq") FoodDetectReq.fields) R
    (lit "fooddetect") (y.foodDetectRequest image imageType seq) {} 1

/-- The request `Youtu.ImageTag` builds: its statements before the call of `interfaceRequest`. -/
def Youtu.imageTagRequest (y : Youtu) (image : Bytes) (imageType : Int) (seq : GoString)
    : ImageTagReq :=
  let req : ImageTagReq := {}
  let req := { req with AppID := y.appID }
  let req := { req with Seq := seq }
  if imageType = 0 then
    { req with Image := EncodeToString image }
  else
    { req with Url := image }

/-- The method `Youtu.ImageTag`. -/
def Youtu.ImageTag (env : Env) (R : RspType ImageTagRsp) (y : Youtu) (image : Bytes) (imageType
    : Int) (seq : GoString) :
    CallResult ImageTagRsp :=
  y.interfaceRequest env (structReqType env (lit "youtu.ImageTagReq") ImageTagReq.fields) R
    (lit "imagetag") (y.imageTagRequest image imageType seq) {} 1

/-- The request `Youtu.ImagePorn` builds: its statements before the call of `interfaceRequest`. -/
def Youtu.imagePornRequest (y : Youtu) (image : Bytes) (imageType : Int) (seq : GoString)
    : ImagePornReq :=
  let req : ImagePornReq := {}
  let req := { req with AppID := y.appID }
  let req := { req with Seq := seq }
  if imageType = 0 then
    { req with Image := EncodeToString image }
  else
    { req with Url := image }

/-- The method `Youtu.ImagePorn`. -/
def Youtu.ImagePorn (env : Env) (R : RspType ImagePornRsp) (y : Youtu) (image : Bytes) (imageType
    : Int) (seq : GoString) :
    CallResult ImagePornRsp :=
  y.interfaceRequest env (structReqType env (lit "youtu.ImagePornReq") ImagePornReq.fields) R
    (lit "imageporn") (y.imagePornRequest image imageType seq) {} 1

/-- The request `Youtu.IdcardOcr` builds: its statements before the call of `interfaceRequest`. -/
def Youtu.idcardOcrRequest (y : Youtu) (image : Bytes) (imageType : Int) (cardType : Int) (seq
    : GoString) : IdcardOcrReq :=
  let req : IdcardOcrReq := {}
  let req := { req with AppID := y.appID }
  let req := { req with SessionId := seq }
  let req := { req with CardType := cardType }
  if imageType = 0 then
    { req with Image := EncodeToString image }
  else
    { req with Url := image }

/-- The method `Youtu.IdcardOcr`. -/
def Youtu.IdcardOcr (env : Env) (R : RspType IdcardOcrRsp) (y : Youtu) (image : Bytes) (imageType
    : Int) (cardType : Int) (seq : GoString) :
    CallResult IdcardOcrRsp :=
  y.interfaceRequest env (structReqType env (lit "youtu.IdcardOcrReq") IdcardOcrReq.fields) R
    (lit "idcardocr") (y.idcardOcrRequest image imageType cardType seq) {} 2

/-- The request `Youtu.NameCardOcr` builds: its statements before the call of `interfaceRequest`. -/
def Youtu.nameCardOcrRequest (y : Youtu) (image : Bytes) (imageType : Int) (retImage : Bool) (seq
    : GoString) : NamecardOcrReq :=
  let req : NamecardOcrReq := {}
  let req := { req with AppID := y.appID }
  let req := { req with SessionId := seq }
  let req := { req with RetImage := retImage }
  if imageType = 0 then
    { req with Image := EncodeToString image }
  else
    { req with Url := image }

/-- The method `Youtu.NameCardOcr`. -/
def Youtu.NameCardOcr (env : Env) (R : RspType NamecardOcrRsp) (y : Youtu) (image : Bytes)
    (imageType : Int) (retImage : Bool) (seq : GoString) :
    CallResult NamecardOcrRsp :=
  y.interfaceRequest env (structReqType env (lit "youtu.NamecardOcrReq") NamecardOcrReq.fields) R
    (lit "namecardocr") (y.nameCardOcrRequest image imageType retImage seq) {} 2

/-! ## `encoding/json`: decoding a reply into a response struct -/

/-- A JSON text after scanning: a number keeps its literal, a string is unescaped, an object
keeps its members in the order of the text, duplicates included. -/
inductive JSON
  | null
  | bool (b : Bool)
  | number (literal : GoString)
  | string (s : GoString)
  | array (items : List JSON)
  | object (members : List (GoString × JSON))

/-- What the scanner of `encoding/json` and `strconv` do: `parse` is the syntax check and scan of
a whole text (an error, or its value), `parseFloat32` is `strconv.ParseFloat(s, 32)` on a number
literal (`none` when the value is out of range). -/
structure JSONText where
  parse : Bytes → Except GoError JSON
  parseFloat32 : GoString → Option GoFloat32

/-- The name `encoding/json` gives the kind of a JSON value in its type errors. -/
def JSON.kind : JSON → GoString
  | .null => lit "null"
  | .bool _ => lit "bool"
  | .number _ => lit "number"
  | .string _ => lit "string"
  | .array _ => lit "array"
  | .object _ => lit "object"

/-- The error `json.UnmarshalTypeError`, with its text. -/
def unmarshalTypeError (value goType : GoString) : GoError :=
  ⟨lit "json: cannot unmarshal " ++ value ++ lit " into Go value of type " ++ goType⟩

/-- The mask that maps an ASCII letter to its upper case. -/
def caseMask : UInt8 := 0xDF

/-- Whether a byte is an upper-case ASCII letter. -/
def isUpperASCII (b : UInt8) : Bool := 65 ≤ b && b ≤ 90

/-- The case folding by which `encoding/json` matches an ASCII field name `s` with a key `t` of
the text: bytes are equal, or are the two cases of one ASCII letter; for the letters s and k the
key may also have U+017F (bytes C5 BF) and U+212A (bytes E2 84 AA). -/
def equalFold : GoString → GoString → Bool
  | [], t => t.isEmpty
  | sb :: s, t =>
    match t with
    | [] => false
    | tb :: t1 =>
      if tb < 128 then
        (sb == tb ||
          (isUpperASCII (sb &&& caseMask) && (sb &&& caseMask) == (tb &&& caseMask))) &&
          equalFold s t1
      else if sb == 115 || sb == 83 then
        tb == 0xC5 && t1.take 1 == [0xBF] && equalFold s (t1.drop 1)
      else if sb == 107 || sb == 75 then
        tb == 0xE2 && t1.take 2 == [0x84, 0xAA] && equalFold s (t1.drop 2)
      else
        false

/-- The index of the first name that satisfies `p`. -/
def findIndex (p : GoString → Bool) : List GoString → Option Nat
  | [] => none
  | n :: ns => if p n then some 0 else (findIndex p ns).map (· + 1)

/-- The field of a struct that a key of the text selects, given the JSON names of the fields in
order: the field with exactly that name, else the first field whose name folds to the key. -/
def fieldIndex (names : List GoString) (key : GoString) : Option Nat :=
  match findIndex (fun n => n == key) names with
  | some i => some i
  | none => findIndex (fun n => equalFold n key) names

/-- Whether a byte is an ASCII digit. -/
def isDigitByte (c : UInt8) : Bool := 48 ≤ c && c ≤ 57

/-- The function `strconv.ParseInt(s, 10, 64)` on a number literal of JSON: an optional minus
sign and decimal digits, within 64 bits. -/
def parseInt (s : GoString) : Option Int :=
  let neg := s.head? == some 45
  let digits := if neg then s.drop 1 else s
  if digits.isEmpty || !digits.all isDigitByte then none
  else
    let v : Int := if neg then -(Int.ofNat (decValue digits)) else Int.ofNat (decValue digits)
    if -9223372036854775808 ≤ v && v ≤ 9223372036854775807 then some v else none

/-- Whether an integer fits a signed integer type of the given width. -/
def fitsInt (bits : Nat) (v : Int) : Bool :=
  -(2 ^ (bits - 1) : Int) ≤ v && v < (2 ^ (bits - 1) : Int)

/-- Storing a JSON value into a `string` field: the new field and the error. -/
def storeString (j : JSON) (old : GoString) : GoString × Option GoError :=
  match j with
  | .string s => (s, none)
  | .null => (old, none)
  | other => (old, some (unmarshalTypeError other.kind (lit "string")))

/-- Storing a JSON value into a signed integer field of the given width. -/
def storeInt (bits : Nat) (goType : GoString) (j : JSON) (old : Int) : Int × Option GoError :=
  match j with
  | .number literal =>
    match parseInt literal with
    | some v =>
      if fitsInt bits v then (v, none)
      else (old, some (unmarshalTypeError (lit "number " ++ literal) goType))
    | none => (old, some (unmarshalTypeError (lit "number " ++ literal) goType))
  | .null => (old, none)
  | other => (old, some (unmarshalTypeError other.kind goType))

/-- Storing a JSON value into a `bool` field. -/
def storeBool (j : JSON) (old : Bool) : Bool × Option GoError :=
  match j with
  | .bool b => (b, none)
  | .null => (old, none)
  | other => (old, some (unmarshalTypeError other.kind (lit "bool")))

/-- Storing a JSON value into a `float32` field. -/
def storeFloat32 (std : JSONText) (j : JSON) (old : GoFloat32) : GoFloat32 × Option GoError :=
  match j with
  | .number literal =>
    match std.parseFloat32 literal with
    | some v => (v, none)
    | none => (old, some (unmarshalTypeError (lit "number " ++ literal) (lit "float32")))
  | .null => (old, none)
  | other => (old, some (unmarshalTypeError other.kind (lit "float32")))

/-- The first error of a list, `nil` if there is none. -/
def firstError : List (Option GoError) → Option GoError
  | [] => none
  | some e :: _ => some e
  | none :: es => firstError es

/-- Decoding the items of a JSON array into the elements of a slice: item `i` goes into the old
element `i` when the slice has one and into a zero element otherwise. -/
def decodeItems {α : Type} (elem : JSON → α → α × Option GoError) (zero : α) :
    List JSON → List α → List (α × Option GoError)
  | [], _ => []
  | j :: js, [] => elem j zero :: decodeItems elem zero js []
  | j :: js, o :: os => elem j o :: decodeItems elem zero js os

/-- Storing a JSON value into a slice field: an array gives a slice with one element per item
(an item that does not decode leaves its element and reports its error), `null` gives `nil`. -/
def storeSlice {α : Type} (goType : GoString) (elem : JSON → α → α × Option GoError)
    (zero : α) (j : JSON) (old : Slice α) : Slice α × Option GoError :=
  match j with
  | .array items =>
    (some ((decodeItems elem zero items (old.getD [])).map Prod.fst),
      firstError ((decodeItems elem zero items (old.getD [])).map Prod.snd))
  | .null => (none, none)
  | other => (old, some (unmarshalTypeError other.kind goType))

/-- Decoding the members of a JSON object into a struct, in order; the first error is kept and
decoding goes on. `store` stores one member. -/
def decodeObject {α : Type} (store : α → GoString → JSON → α × Option GoError)
    (members : List (GoString × JSON)) (r : α) : α × Option GoError :=
  members.foldl
    (fun acc m => ((store acc.1 m.1 m.2).1, firstError [acc.2, (store acc.1 m.1 m.2).2]))
    (r, none)

/-- Decoding a JSON value into a struct: an object member by member, `null` leaves the struct as
it is, anything else is a type error. -/
def decodeStruct {α : Type} (goType : GoString)
    (store : α → GoString → JSON → α × Option GoError) (j : JSON) (r : α) :
    α × Option GoError :=
  match j with
  | .object members => decodeObject store members r
  | .null => (r, none)
  | other => (r, some (unmarshalTypeError other.kind goType))

/-- The function `json.Unmarshal` on a pointer to a struct: a text with a syntax error leaves
the struct as it is. -/
def unmarshalStruct {α : Type} (std : JSONText) (goType : GoString)
    (store : α → GoString → JSON → α × Option GoError) (body : Bytes) (r : α) :
    α × Option GoError :=
  match std.parse body with
  | .error e => (r, some e)
  | .ok j => decodeStruct goType store j r

/-- The `json` tags of `Face`, in field order. -/
def Face.names : List GoString :=
  [lit "face_id", lit "x", lit "y", lit "width", lit "height", lit "gender", lit "age",
    lit "expression", lit "glass", lit "pitch", lit "yaw", lit "roll", lit "beauty"]

/-- Storing one member of a JSON object into a `Face`. -/
def Face.store (std : JSONText) (r : Face) (key : GoString) (j : JSON) :
    Face × Option GoError :=
  match fieldIndex Face.names key with
  | some 0 => ({ r with FaceID := (storeString j r.FaceID).1 }, (storeString j r.FaceID).2)
  | some 1 =>
    ({ r with X := (storeInt 32 (lit "int32") j r.X).1 }, (storeInt 32 (lit "int32") j r.X).2)
  | some 2 =>
    ({ r with Y := (storeInt 32 (lit "int32") j r.Y).1 }, (storeInt 32 (lit "int32") j r.Y).2)
  | some 3 =>
    ({ r with Width := (storeFloat32 std j r.Width).1 }, (storeFloat32 std j r.Width).2)
  | some 4 =>
    ({ r with Height := (storeFloat32 std j r.Height).1 }, (storeFloat32 std j r.Height).2)
  | some 5 =>
    ({ r with Gender := (storeInt 32 (lit "int32") j r.Gender).1 },
      (storeInt 32 (lit "int32") j r.Gender).2)
  | some 6 =>
    ({ r with Age := (storeInt 32 (lit "int32") j r.Age).1 },
      (storeInt 32 (lit "int32") j r.Age).2)
  | some 7 =>
    ({ r with Expression := (storeInt 32 (lit "int32") j r.Expression).1 },
      (storeInt 32 (lit "int32") j r.Expression).2)
  | some 8 => ({ r with Glass := (storeBool j r.Glass).1 }, (storeBool j r.Glass).2)
  | some 9 =>
    ({ r with Pitch := (storeInt 32 (lit "int32") j r.Pitch).1 },
      (storeInt 32 (lit "int32") j r.Pitch).2)
  | some 10 =>
    ({ r with Yaw := (storeInt 32 (lit "int32") j r.Yaw).1 },
      (storeInt 32 (lit "int32") j r.Yaw).2)
  | some 11 =>
    ({ r with Roll := (storeInt 32 (lit "int32") j r.Roll).1 },
      (storeInt 32 (lit "int32") j r.Roll).2)
  | some 12 =>
    ({ r with Beauty := (storeInt 32 (lit "int32") j r.Beauty).1 },
      (storeInt 32 (lit "int32") j r.Beauty).2)
  | _ => (r, none)

/-- The `json` tags of `DetectFaceRsp`, in field order. -/
def DetectFaceRsp.names : List GoString :=
  [lit "session_id", lit "image_width", lit "image_height", lit "face", lit "errorcode",
    lit "errormsg"]

/-- Storing one member of a JSON object into a `DetectFaceRsp`. -/
def DetectFaceRsp.store (std : JSONText) (r : DetectFaceRsp) (key : GoString) (j : JSON) :
    DetectFaceRsp × Option GoError :=
  match fieldIndex DetectFaceRsp.names key with
  | some 0 =>
    ({ r with SessionID := (storeString j r.SessionID).1 }, (storeString j r.SessionID).2)
  | some 1 =>
    ({ r with ImageWidth := (storeInt 32 (lit "int32") j r.ImageWidth).1 },
      (storeInt 32 (lit "int32") j r.ImageWidth).2)
  | some 2 =>
    ({ r with ImageHeight := (storeInt 32 (lit "int32") j r.ImageHeight).1 },
      (storeInt 32 (lit "int32") j r.ImageHeight).2)
  | some 3 =>
    ({ r with Face := (storeSlice (lit "[]youtu.Face")
          (decodeStruct (lit "youtu.Face") (Face.store std)) {} j r.Face).1 },
      (storeSlice (lit "[]youtu.Face")
        (decodeStruct (lit "youtu.Face") (Face.store std)) {} j r.Face).2)
  | some 4 =>
    ({ r with ErrorCode := (storeInt 64 (lit "int") j r.ErrorCode).1 },
      (storeInt 64 (lit "int") j r.ErrorCode).2)
  | some 5 =>
    ({ r with ErrorMsg := (storeString j r.ErrorMsg).1 }, (storeString j r.ErrorMsg).2)
  | _ => (r, none)

/-- What `fmt` and `encoding/json` do with a `*DetectFaceRsp`, given the scanner and the text of
`%#v`: `json.Unmarshal` follows the tags of the struct. -/
def DetectFaceRsp.rspType (std : JSONText) (goSyntax : DetectFaceRsp → GoString) :
    RspType DetectFaceRsp where
  goSyntax := goSyntax
  jsonUnmarshal := unmarshalStruct std (lit "youtu.DetectFaceRsp") (DetectFaceRsp.store std)

/-- The `json` tags of `NamecardOcrRsp`, in field order, as the source has them: four of them
end in a space. -/
def NamecardOcrRsp.names : List GoString :=
  [lit "session_id", lit "phone", lit "phone_confidence ", lit "name ", lit "name_confidence ",
    lit "image ", lit "errorcode", lit "errormsg"]

/-- Storing one member of a JSON object into a `NamecardOcrRsp`. -/
def NamecardOcrRsp.store (std : JSONText) (r : NamecardOcrRsp) (key : GoString) (j : JSON) :
    NamecardOcrRsp × Option GoError :=
  match fieldIndex NamecardOcrRsp.names key with
  | some 0 =>
    ({ r with SessionId := (storeString j r.SessionId).1 }, (storeString j r.SessionId).2)
  | some 1 => ({ r with Phone := (storeString j r.Phone).1 }, (storeString j r.Phone).2)
  | some 2 =>
    ({ r with PhoneConfidence := (storeFloat32 std j r.PhoneConfidence).1 },
      (storeFloat32 std j r.PhoneConfidence).2)
  | some 3 => ({ r with Name := (storeString j r.Name).1 }, (storeString j r.Name).2)
  | some 4 =>
    ({ r with NameConfidence := (storeFloat32 std j r.NameConfidence).1 },
      (storeFloat32 std j r.NameConfidence).2)
  | some 5 => ({ r with Image := (storeString j r.Image).1 }, (storeString j r.Image).2)
  | some 6 =>
    ({ r with ErrorCode := (storeInt 32 (lit "int32") j r.ErrorCode).1 },
      (storeInt 32 (lit "int32") j r.ErrorCode).2)
  | some 7 =>
    ({ r with ErrorMsg := (storeString j r.ErrorMsg).1 }, (storeString j r.ErrorMsg).2)
  | _ => (r, none)

/-- What `fmt` and `encoding/json` do with a `*NamecardOcrRsp`, given the scanner and the text
of `%#v`: `json.Unmarshal` follows the tags of the struct. -/
def NamecardOcrRsp.rspType (std : JSONText) (goSyntax : NamecardOcrRsp → GoString) :
    RspType NamecardOcrRsp where
  goSyntax := goSyntax
  jsonUnmarshal := unmarshalStruct std (lit "youtu.NamecardOcrRsp") (NamecardOcrRsp.store std)

/-! ## Notions used in the statements -/

/-- The requests a trace hands to the network, in order. -/
def sent : List Event → List (HttpClient × HttpRequest)
  | [] => []
  | .send c r :: t => (c, r) :: sent t
  | _ :: t => sent t

/-- The request `Youtu.get` builds for an address and a body and hands to `client.Do`. -/
def Youtu.postRequest (env : Env) (y : Youtu) (addr req : GoString) : HttpRequest :=
  { Method := lit "POST", URL := addr, Body := req,
    Header := [(lit "Authorization", y.sign env), (lit "Content-Type", lit "text/json"),
      (lit "User-Agent", lit ""), (lit "Accept", lit "*/*"), (lit "Expect", lit "100-continue")] }

/-- The text of the error `Youtu.get` returns for a status code other than 200. -/
def httpStatusError (code : Int) : GoError :=
  errorsNew (lit "httperrorcode: " ++ formatInt code ++ lit " \n")

/-- Whether a string field of a request is populated: it is not the empty string. -/
def populated (s : GoString) : Bool := s.length != 0

/-- Whether a slice field of a request is populated: it has an element. -/
def populatedSlice (s : Slice GoString) : Bool := s.len != 0

/-- Whether `json.Marshal` prints a member with the given key for a struct. -/
def printsKey (fields : List Field) (key : GoString) : Bool := (jsonKeys fields).contains key

/-- Exactly one of two holds: not both and not neither. -/
def exactlyOne (p q : Bool) : Bool := (p && !q) || (!p && q)

/-- Exactly one of the image field and the url field of a request is populated. -/
def oneOf (image url : GoString) : Prop := exactlyOne (populated image) (populated url) = true

/-- For a struct, `json.Marshal` prints exactly one of the two keys. -/
def printsOneOf (fields : List Field) (imageKey urlKey : GoString) : Prop :=
  exactlyOne (printsKey fields imageKey) (printsKey fields urlKey) = true

/-- The image-or-url selection for the image bytes `b` under the image-type indicator `t`: with
indicator 0 the image field is the base64 text of `b` and the url field is empty; with any other
indicator the url field is `b` as a string and the image field is empty. -/
def selected (t : Int) (b : Bytes) (image url : GoString) : Prop :=
  if t = 0 then image = EncodeToString b ∧ url = [] else url = b ∧ image = []

/-- In the members of a JSON object decoded into a struct with the given field names, `key` is
bound to a value that satisfies `P`: a member has this key, and every member that selects the
field of `key` carries a value that satisfies `P`. -/
def boundTo (names : List GoString) (key : GoString) (members : List (GoString × JSON))
    (P : JSON → Prop) : Prop :=
  (∃ v, (key, v) ∈ members) ∧
    ∀ m ∈ members, fieldIndex names m.1 = fieldIndex names key → P m.2

/-- Whether an error value carries a body: it is an error whose text contains the body. -/
def carriesBody (e : Option GoError) (body : Bytes) : Bool :=
  match e with
  | none => false
  | some err => decide (body <:+: err.Error)

/-! ## A test double of the world, for the concrete instances -/

/-- The text `encoding/json` prints for a string that needs no escaping. -/
def quoted (s : GoString) : Bytes := lit "\"" ++ s ++ lit "\""

/-- The text `encoding/json` prints for a field value whose strings need no escaping. -/
def plainValue : FieldValue → Bytes
  | .string s => quoted s
  | .int i => formatInt i
  | .bool b => if b then lit "true" else lit "false"
  | .strings none => lit "null"
  | .strings (some l) => lit "[" ++ ((l.map quoted).intersperse (lit ",")).flatten ++ lit "]"

/-- The text `encoding/json` prints for an object whose strings need no escaping. -/
def plainObject (members : List (GoString × FieldValue)) : Bytes :=
  lit "\x7b" ++
    ((members.map (fun m => quoted m.1 ++ lit ":" ++ plainValue m.2)).intersperse (lit ",")).flatten
    ++ lit "\x7d"

/-- A mock world: every address is accepted, and whatever is sent, the server replies with the
given status code and body. The token is a placeholder made of the secret id and the time, `%#v`
a placeholder made of the type name and the JSON text. -/
def mockEnv (status : Int) (body : Bytes) : Env where
  now := 1440460800
  signer := ⟨fun appSign now => appSign.secretID ++ lit "." ++ formatInt now⟩
  jsonObject := plainObject
  goSyntax := fun typeName fields => typeName ++ plainObject fields
  urlParse := fun _ => none
  Do := fun _ _ => .ok ⟨status, body, none⟩

/-- The client of the samples: app id 1, secret id "A", secret key "B", no user id, on the
default host. -/
def sampleClient : Youtu := Init (NewAppSign 1 (lit "A") (lit "B") []).1 DefaultHost

/-- The address of face detection on the default host. -/
def sampleURL : GoString := lit "http://api.youtu.qq.com/youtu/api/detectface"

/-- The JSON text of the face-detection request of `sampleClient` for the image bytes 1, 2, 3. -/
def sampleBody : GoString := lit "\x7b\"app_id\":\"1\",\"image\":\"AQID\"\x7d"

/-- A reply body of the service that reports an application-level error. -/
def errorReply : Bytes :=
  lit "\x7b\"errorcode\":-1101,\"errormsg\":\"SDK_IMAGE_FACEDETECT_FAILED\"\x7d"

/-- A reply body that is not JSON. -/
def htmlReply : Bytes := lit "<html>"

/-- The error of `encoding/json` on a text that starts with `<`. -/
def syntaxError : GoError := ⟨lit "invalid character \x27<\x27 looking for beginning of value"⟩

/-- A mock of `fmt` and `encoding/json` on a `*DetectFaceRsp`, for the concrete instances. The
decoder knows one reply of the service, an object with an error code and message, and rejects
every other body the way `encoding/json` rejects an HTML page; `%#v` is exact on responses whose
face list is `nil` and shortens the face list otherwise. -/
def mockDetectFaceRsp : RspType DetectFaceRsp where
  goSyntax := fun r =>
    lit "&youtu.DetectFaceRsp\x7bSessionID:" ++ quoted r.SessionID ++
      lit ", ImageWidth:" ++ formatInt r.ImageWidth ++
      lit ", ImageHeight:" ++ formatInt r.ImageHeight ++
      lit ", Face:[]youtu.Face" ++
      (match r.Face with
        | none => lit "(nil)"
        | some _ => lit "\x7b...\x7d") ++
      lit ", ErrorCode:" ++ formatInt r.ErrorCode ++
      lit ", ErrorMsg:" ++ quoted r.ErrorMsg ++ lit "\x7d"
  jsonUnmarshal := fun body r =>
    if body = errorReply then
      ({ r with ErrorCode := -1101, ErrorMsg := lit "SDK_IMAGE_FACEDETECT_FAILED" }, none)
    else
      (r, some syntaxError)

/-- The reply body of the face-detection scenario of the spec. -/
def faceReply : Bytes := lit "\x7b\"session_id\":\"s1\",\"face\":[]\x7d"

/-- The reply body of the scenario with one more member, an error code given as a string. -/
def faceReplyBadCode : Bytes :=
  lit "\x7b\"session_id\":\"s1\",\"face\":[],\"errorcode\":\"0\"\x7d"

/-- A reply body of name-card OCR with the five keys of the result. -/
def namecardReply : Bytes :=
  lit "\x7b\"name\":\"Li\",\"phone\":\"13800138000\",\"name_confidence\":0.9," ++
    lit "\"phone_confidence\":0.8,\"image\":\"AQID\"\x7d"

/-- A mock of the scanner of `encoding/json` and of `strconv.ParseFloat`, for the concrete
instances: it knows the three sample replies, whose values it gives as `encoding/json` scans
them, and rejects every other text as a syntax error; it knows the `float32` bits of the
literals 0.9 and 0.8. -/
def mockJSONText : JSONText where
  parse := fun body =>
    if body = faceReply then
      .ok (.object [(lit "session_id", .string (lit "s1")), (lit "face", .array [])])
    else if body = faceReplyBadCode then
      .ok (.object [(lit "session_id", .string (lit "s1")), (lit "face", .array []),
        (lit "errorcode", .string (lit "0"))])
    else if body = namecardReply then
      .ok (.object [(lit "name", .string (lit "Li")), (lit "phone", .string (lit "13800138000")),
        (lit "name_confidence", .number (lit "0.9")),
        (lit "phone_confidence", .number (lit "0.8")), (lit "image", .string (lit "AQID"))])
    else
      .error syntaxError
  parseFloat32 := fun literal =>
    if literal = lit "0.9" then some ⟨0x3F666666⟩
    else if literal = lit "0.8" then some ⟨0x3F4CCCCD⟩
    else none

/-- A host whose IPv6 bracket is not closed. -/
def badHost : GoString := lit "http://[::1"

/-- The address of face detection on `badHost`; `http.NewRequest` rejects it. -/
def badURL : GoString := lit "http://[::1/youtu/api/detectface"

/-- The error of `net/url` on `badURL`. -/
def parseError : GoError :=
  ⟨lit "parse \"http://[::1/youtu/api/detectface\": missing \x27]\x27 in host"⟩

/-- The mock world in which `http.NewRequest` rejects `badURL`, as `net/url` does, and accepts
every other address. -/
def strictEnv (status : Int) (body : Bytes) : Env :=
  { mockEnv status body with
    urlParse := fun addr => if addr = badURL then some parseError else none }

/-- The client of the samples, on `badHost`. -/
def badClient : Youtu := Init (NewAppSign 1 (lit "A") (lit "B") []).1 badHost

/-- The JSON text of the face-detection request of `sampleClient` for an empty image. -/
def emptyImageBody : GoString := lit "\x7b\"app_id\":\"1\"\x7d"
/-! ## Decimal formatting is injective -/

theorem digitByte_toNat (d : Nat) (h : d < 10) : (digitByte d).toNat = 48 + d := by
  simp [digitByte, UInt8.ofNat, UInt8.toNat, Fin.ofNat]
  omega

theorem decValue_decDigits : ∀ (fuel n : Nat), n < fuel → decValue (decDigits fuel n) = n := by
  intro fuel
  induction fuel with
  | zero => intro n h; omega
  | succ k ih =>
    intro n h
    unfold decDigits
    by_cases h10 : n < 10
    · simp [h10, decValue, digitByte_toNat n h10]
    · have hk : n / 10 < k := by omega
      have := ih (n / 10) hk
      simp only [decValue] at this
      simp [h10, decValue, List.foldl_append, this, digitByte_toNat (n % 10) (by omega)]
      omega

theorem decDigits_ge :
    ∀ (fuel n : Nat) (c : UInt8), c ∈ decDigits fuel n → 48 ≤ c.toNat := by
  intro fuel
  induction fuel with
  | zero => intro n c h; simp [decDigits] at h
  | succ k ih =>
    intro n c h
    unfold decDigits at h
    by_cases h10 : n < 10
    · simp [h10] at h
      rw [h, digitByte_toNat n h10]
      omega
    · simp [h10] at h
      rcases h with h | h
      · exact ih _ _ h
      · rw [h, digitByte_toNat (n % 10) (by omega)]
        omega

theorem formatNat_injective (a b : Nat) (h : formatNat a = formatNat b) : a = b := by
  have ha := decValue_decDigits (a + 1) a (by omega)
  have hb := decValue_decDigits (b + 1) b (by omega)
  unfold formatNat at h
  rw [h] at ha
  omega

theorem lit_minus : lit "-" = [45] := by decide

theorem minus_ne_formatNat (a b : Nat) : lit "-" ++ formatNat a ≠ formatNat b := by
  intro h
  have hm : (45 : UInt8) ∈ formatNat b := by
    rw [← h, lit_minus]
    simp
  exact absurd (decDigits_ge _ _ _ hm) (by decide)

theorem formatInt_injective (a b : Int) (h : formatInt a = formatInt b) : a = b := by
  unfold formatInt at h
  by_cases ha : a < 0 <;> by_cases hb : b < 0
  · simp only [ha, hb, if_true] at h
    have := formatNat_injective _ _ (List.append_cancel_left h)
    omega
  · simp only [ha, hb, if_true, if_false] at h
    exact absurd h (minus_ne_formatNat _ _)
  · simp only [ha, hb, if_true, if_false] at h
    exact absurd h.symm (minus_ne_formatNat _ _)
  · simp only [ha, hb, if_false] at h
    have := formatNat_injective _ _ h
    omega


/-! ## Endpoint routing -/

theorem lit_api : lit "/youtu/api/" = [47, 121, 111, 117, 116, 117, 47, 97, 112, 105, 47] := by
  decide

theorem lit_imageapi :
    lit "/youtu/imageapi/" =
      [47, 121, 111, 117, 116, 117, 47, 105, 109, 97, 103, 101, 97, 112, 105, 47] := by
  decide

theorem lit_ocrapi :
    lit "/youtu/ocrapi/" = [47, 121, 111, 117, 116, 117, 47, 111, 99, 114, 97, 112, 105, 47] := by
  decide

theorem api_ne_imageapi (host op : GoString) :
    host ++ lit "/youtu/api/" ++ op ≠ host ++ lit "/youtu/imageapi/" ++ op := by
  intro h
  rw [List.append_assoc, List.append_assoc] at h
  have h2 := List.append_cancel_left h
  rw [lit_api, lit_imageapi] at h2
  simp at h2

theorem api_ne_ocrapi (host op : GoString) :
    host ++ lit "/youtu/api/" ++ op ≠ host ++ lit "/youtu/ocrapi/" ++ op := by
  intro h
  rw [List.append_assoc, List.append_assoc] at h
  have h2 := List.append_cancel_left h
  rw [lit_api, lit_ocrapi] at h2
  simp at h2

theorem imageapi_ne_ocrapi (host op : GoString) :
    host ++ lit "/youtu/imageapi/" ++ op ≠ host ++ lit "/youtu/ocrapi/" ++ op := by
  intro h
  rw [List.append_assoc, List.append_assoc] at h
  have h2 := List.append_cancel_left h
  rw [lit_imageapi, lit_ocrapi] at h2
  simp at h2

/-- C8: `Youtu.interfaceURL` is a total function of the host, the operation name and the family
selector: it is host + "/youtu/api/" + op for selector 0, host + "/youtu/imageapi/" + op for
selector 1, and host + "/youtu/ocrapi/" + op for selector 2 and for every other selector; a client
with the same host and any other credential and debug flag gets the same URL. -/
theorem interfaceURL_total (y : Youtu) (ifname : GoString) (urltype : Int) :
    y.interfaceURL ifname urltype =
        y.host ++ (if urltype = 0 then lit "/youtu/api/"
          else if urltype = 1 then lit "/youtu/imageapi/" else lit "/youtu/ocrapi/") ++ ifname ∧
      y.interfaceURL ifname 0 = y.host ++ lit "/youtu/api/" ++ ifname ∧
      y.interfaceURL ifname 1 = y.host ++ lit "/youtu/imageapi/" ++ ifname ∧
      y.interfaceURL ifname 2 = y.host ++ lit "/youtu/ocrapi/" ++ ifname ∧
      ∀ (appSign : AppSign) (debug : Bool),
        Youtu.interfaceURL ⟨appSign, y.host, debug⟩ ifname urltype =
          y.interfaceURL ifname urltype := by
  refine ⟨?_, rfl, rfl, rfl, fun _ _ => rfl⟩
  unfold Youtu.interfaceURL
  split_ifs <;> rfl

/-- C9: for every host and operation name, the URLs `Youtu.interfaceURL` gives for the selectors
0, 1 and 2 are pairwise distinct, and each is its own template among host/youtu/api/op,
host/youtu/imageapi/op and host/youtu/ocrapi/op and differs from the other two templates. -/
theorem interfaceURL_families_distinct (y : Youtu) (ifname : GoString) :
    (y.interfaceURL ifname 0 ≠ y.interfaceURL ifname 1 ∧
      y.interfaceURL ifname 0 ≠ y.interfaceURL ifname 2 ∧
      y.interfaceURL ifname 1 ≠ y.interfaceURL ifname 2) ∧
    (y.interfaceURL ifname 0 = y.host ++ lit "/youtu/api/" ++ ifname ∧
      y.interfaceURL ifname 0 ≠ y.host ++ lit "/youtu/imageapi/" ++ ifname ∧
      y.interfaceURL ifname 0 ≠ y.host ++ lit "/youtu/ocrapi/" ++ ifname) ∧
    (y.interfaceURL ifname 1 ≠ y.host ++ lit "/youtu/api/" ++ ifname ∧
      y.interfaceURL ifname 1 = y.host ++ lit "/youtu/imageapi/" ++ ifname ∧
      y.interfaceURL ifname 1 ≠ y.host ++ lit "/youtu/ocrapi/" ++ ifname) ∧
    (y.interfaceURL ifname 2 ≠ y.host ++ lit "/youtu/api/" ++ ifname ∧
      y.interfaceURL ifname 2 ≠ y.host ++ lit "/youtu/imageapi/" ++ ifname ∧
      y.interfaceURL ifname 2 = y.host ++ lit "/youtu/ocrapi/" ++ ifname) := by
  have e0 : y.interfaceURL ifname 0 = y.host ++ lit "/youtu/api/" ++ ifname := rfl
  have e1 : y.interfaceURL ifname 1 = y.host ++ lit "/youtu/imageapi/" ++ ifname := rfl
  have e2 : y.interfaceURL ifname 2 = y.host ++ lit "/youtu/ocrapi/" ++ ifname := rfl
  have ai := api_ne_imageapi y.host ifname
  have ao := api_ne_ocrapi y.host ifname
  have io := imageapi_ne_ocrapi y.host ifname
  rw [e0, e1, e2]
  exact ⟨⟨ai, ao, io⟩, ⟨rfl, ai, ao⟩, ⟨Ne.symm ai, rfl, io⟩,
    ⟨Ne.symm ao, Ne.symm io, rfl⟩⟩

/-! ## Credential validation -/

/-- C10: `NewAppSign` returns `ErrUserIDTooLong` if and only if `len(userID) > 110`; it has no
other failure: its error is `nil` or `ErrUserIDTooLong`, and for a user id of at most 110 bytes it
returns the credential made of its four arguments and a `nil` error. -/
theorem NewAppSign_fails_iff (appID : Nat) (secretID secretKey userID : GoString) :
    ((NewAppSign appID secretID secretKey userID).2 = some ErrUserIDTooLong ↔
        userID.length > 110) ∧
      ((NewAppSign appID secretID secretKey userID).2 = none ↔ userID.length ≤ 110) ∧
      ((NewAppSign appID secretID secretKey userID).2 = none →
        (NewAppSign appID secretID secretKey userID).1 =
          { appID := appID, secretID := secretID, secretKey := secretKey, userID := userID }) := by
  unfold NewAppSign UserIDMaxLen
  by_cases h : userID.length > 110
  · simp [h]
  · simp [h]
    omega

theorem NewAppSign_boundary (appID : Nat) (secretID secretKey : GoString) :
    (NewAppSign appID secretID secretKey (List.replicate 110 120)).2 = none ∧
      (NewAppSign appID secretID secretKey (List.replicate 111 120)).2 =
        some ErrUserIDTooLong := by
  simp [NewAppSign, UserIDMaxLen]

/-! ## Transport -/

theorem get_of_urlParse_some (env : Env) (y : Youtu) (addr req : GoString) (e : GoError)
    (h : env.urlParse addr = some e) :
    y.get env addr req = { rsp := [], err := some e, trace := [] } := by
  simp [Youtu.get, NewRequest, h]

theorem get_trace (env : Env) (y : Youtu) (addr req : GoString)
    (h : env.urlParse addr = none) :
    (y.get env addr req).trace =
      (if y.debug then [Event.stderr (lit "Authorization: " ++ y.sign env ++ lit "\n")] else [])
        ++ [Event.send ⟨5 * Second⟩ (y.postRequest env addr req)] := by
  simp only [Youtu.get, NewRequest, h, HttpRequest.HeaderAdd, List.nil_append, List.cons_append]
  cases hd : env.Do ⟨5 * Second⟩ (y.postRequest env addr req) with
  | error e => simp only [Youtu.postRequest] at hd; simp [hd, Youtu.postRequest]
  | ok resp =>
    simp only [Youtu.postRequest] at hd
    by_cases hs : resp.StatusCode = 200 <;> simp [hd, hs, Youtu.postRequest, ReadAll]

theorem get_of_reply (env : Env) (y : Youtu) (addr req : GoString) (resp : HttpResponse)
    (h : env.urlParse addr = none)
    (hd : env.Do ⟨5 * Second⟩ (y.postRequest env addr req) = .ok resp) :
    (y.get env addr req).rsp = (if resp.StatusCode ≠ 200 then [] else resp.Body) ∧
      (y.get env addr req).err =
        (if resp.StatusCode ≠ 200 then some (httpStatusError resp.StatusCode)
          else resp.BodyErr) := by
  simp only [Youtu.postRequest] at hd
  simp only [Youtu.get, NewRequest, h, HttpRequest.HeaderAdd, List.nil_append, List.cons_append,
    hd]
  by_cases hs : resp.StatusCode = 200 <;> simp [hs, ReadAll, httpStatusError]

theorem get_sent (env : Env) (y : Youtu) (addr req : GoString) (client : HttpClient)
    (httpreq : HttpRequest) (hsent : Event.send client httpreq ∈ (y.get env addr req).trace) :
    env.urlParse addr = none ∧ client = ⟨5 * Second⟩ ∧
      httpreq = y.postRequest env addr req := by
  cases hu : env.urlParse addr with
  | some e => rw [get_of_urlParse_some env y addr req e hu] at hsent; simp at hsent
  | none =>
    rw [get_trace env y addr req hu] at hsent
    by_cases hdbg : y.debug <;> simp [hdbg] at hsent <;> simp [hsent]

theorem httpStatusError_injective (s t : Int) (h : httpStatusError s = httpStatusError t) :
    s = t := by
  simp only [httpStatusError, errorsNew, GoError.mk.injEq, List.append_assoc] at h
  have h2 := List.append_cancel_left h
  exact formatInt_injective s t (List.append_cancel_right h2)

/-- C1: when the request `Youtu.get` sent gets a reply with status code `s` and body `b` (no
network error, the body read to its end), `get` returns exactly `b` and a `nil` error if
`s = 200`, for every `b`, the empty one included; if `s != 200` it returns no body and the error
with text "httperrorcode: s \n", whatever `b` is, and that error is returned for no other code. -/
theorem get_outcome (env : Env) (y : Youtu) (addr req : GoString) (client : HttpClient)
    (httpreq : HttpRequest) (s : Int) (b : Bytes)
    (hsent : Event.send client httpreq ∈ (y.get env addr req).trace)
    (hreply : env.Do client httpreq = .ok ⟨s, b, none⟩) :
    (s = 200 → (y.get env addr req).rsp = b ∧ (y.get env addr req).err = none) ∧
      (s ≠ 200 → (y.get env addr req).rsp = [] ∧
        (y.get env addr req).err =
          some (errorsNew (lit "httperrorcode: " ++ formatInt s ++ lit " \n")) ∧
        ∀ s' : Int, (y.get env addr req).err = some (httpStatusError s') → s' = s) := by
  obtain ⟨hu, hc, hr⟩ := get_sent env y addr req client httpreq hsent
  subst hc hr
  obtain ⟨h1, h2⟩ := get_of_reply env y addr req _ hu hreply
  constructor
  · intro hs
    simp [h1, h2, hs]
  · intro hs
    simp only [ne_eq, hs, not_false_eq_true, if_true] at h1 h2
    refine ⟨h1, h2, ?_⟩
    intro s' hs'
    rw [h2] at hs'
    exact (httpStatusError_injective _ _ (Option.some.inj hs')).symm

/-- A concrete instance of C1: the mock server answers 403 with the body "denied"; `get` returns
no body and the error "httperrorcode: 403 \n". -/
theorem get_outcome_witness :
    Event.send ⟨5 * Second⟩ (sampleClient.postRequest (mockEnv 403 (lit "denied"))
          sampleURL sampleBody) ∈
        (sampleClient.get (mockEnv 403 (lit "denied"))
          sampleURL sampleBody).trace ∧
      (mockEnv 403 (lit "denied")).Do ⟨5 * Second⟩
          (sampleClient.postRequest (mockEnv 403 (lit "denied"))
            sampleURL sampleBody) =
        .ok ⟨403, lit "denied", none⟩ ∧
      (sampleClient.get (mockEnv 403 (lit "denied"))
          sampleURL sampleBody).rsp = [] ∧
      (sampleClient.get (mockEnv 403 (lit "denied"))
          sampleURL sampleBody).err =
        some (errorsNew (lit "httperrorcode: " ++ formatInt 403 ++ lit " \n")) :=
  have hsent : Event.send ⟨5 * Second⟩ (sampleClient.postRequest (mockEnv 403 (lit "denied"))
          sampleURL sampleBody) ∈
        (sampleClient.get (mockEnv 403 (lit "denied"))
          sampleURL sampleBody).trace := by
    decide
  have h := (get_outcome (mockEnv 403 (lit "denied")) sampleClient
    sampleURL sampleBody _ _ 403 (lit "denied")
    hsent rfl).2 (by decide)
  ⟨hsent, rfl, h.1, h.2.1⟩

/-! ## Dispatch -/

theorem sent_append (t u : List Event) : sent (t ++ u) = sent t ++ sent u := by
  induction t with
  | nil => rfl
  | cons e t ih => cases e <;> simp [sent, ih]

theorem get_SetDebug (env : Env) (y : Youtu) (addr req : GoString) (d : Bool) :
    ((y.SetDebug d).get env addr req).rsp = (y.get env addr req).rsp ∧
      ((y.SetDebug d).get env addr req).err = (y.get env addr req).err ∧
      sent ((y.SetDebug d).get env addr req).trace = sent (y.get env addr req).trace := by
  have hp : (y.SetDebug d).postRequest env addr req = y.postRequest env addr req := rfl
  cases hu : env.urlParse addr with
  | some e =>
    rw [get_of_urlParse_some env y addr req e hu, get_of_urlParse_some env _ addr req e hu]
    exact ⟨rfl, rfl, rfl⟩
  | none =>
    have t1 := get_trace env (y.SetDebug d) addr req hu
    have t2 := get_trace env y addr req hu
    have hs : sent ((y.SetDebug d).get env addr req).trace = sent (y.get env addr req).trace := by
      rw [t1, t2, sent_append, sent_append, hp]
      congr 1
      cases y.debug <;> cases (y.SetDebug d).debug <;> rfl
    cases hd : env.Do ⟨5 * Second⟩ (y.postRequest env addr req) with
    | error e =>
      refine ⟨?_, ?_, hs⟩ <;>
        simp [Youtu.get, NewRequest, hu, HttpRequest.HeaderAdd, Youtu.postRequest,
          Youtu.SetDebug, Youtu.sign] at hd ⊢ <;> simp [hd]
    | ok resp =>
      have a := get_of_reply env y addr req resp hu hd
      have b := get_of_reply env (y.SetDebug d) addr req resp hu (hp ▸ hd)
      exact ⟨b.1.trans a.1.symm, b.2.trans a.2.symm, hs⟩

/-- C2: when the request value serializes and the transport `Youtu.get` returns the error `e`,
`Youtu.interfaceRequest` returns exactly `e` and leaves the response value as it was; the whole
outcome is the same for every decoder, so no response is decoded. -/
theorem interfaceRequest_transport_error {α β : Type} (env : Env) (Q : ReqType α)
    (R : RspType β) (y : Youtu) (ifname : GoString) (req : α) (rsp : β) (urltype : Int)
    (data : Bytes) (e : GoError)
    (hm : Q.jsonMarshal req = .ok data)
    (hg : (y.get env (y.interfaceURL ifname urltype) data).err = some e) :
    (y.interfaceRequest env Q R ifname req rsp urltype).err = some e ∧
      (y.interfaceRequest env Q R ifname req rsp urltype).rsp = rsp ∧
      ∀ R' : RspType β,
        (y.interfaceRequest env Q R' ifname req rsp urltype).err = some e ∧
        (y.interfaceRequest env Q R' ifname req rsp urltype).rsp = rsp ∧
        (y.interfaceRequest env Q R' ifname req rsp urltype).trace =
          (y.interfaceRequest env Q R ifname req rsp urltype).trace := by
  have key : ∀ R' : RspType β, y.interfaceRequest env Q R' ifname req rsp urltype =
      { rsp := rsp, err := some e,
        trace := (if y.debug then
            [Event.stdout (lit "req: " ++ Q.goSyntax req ++ lit "\n")] else []) ++
          (y.get env (y.interfaceURL ifname urltype) data).trace } := by
    intro R'
    simp [Youtu.interfaceRequest, hm, hg]
  refine ⟨by rw [key R], by rw [key R], fun R' => ?_⟩
  rw [key R', key R]
  exact ⟨rfl, rfl, rfl⟩

/-- A concrete instance of C2: the mock server answers 500; `DetectFace`, through
`interfaceRequest`, returns the transport error "httperrorcode: 500 \n" as it is. -/
theorem interfaceRequest_transport_error_witness :
    (structReqType (mockEnv 500 (lit "oops")) (lit "youtu.detectFaceReq")
          detectFaceReq.fields).jsonMarshal (sampleClient.detectFaceRequest [1, 2, 3] false 0) =
        .ok sampleBody ∧
      (sampleClient.get (mockEnv 500 (lit "oops")) (sampleClient.interfaceURL (lit "detectface") 0)
          sampleBody).err =
        some (httpStatusError 500) ∧
      (sampleClient.DetectFace (mockEnv 500 (lit "oops")) mockDetectFaceRsp
          [1, 2, 3] false 0).err = some (httpStatusError 500) :=
  ⟨rfl, by decide,
    (interfaceRequest_transport_error (mockEnv 500 (lit "oops"))
      (structReqType (mockEnv 500 (lit "oops")) (lit "youtu.detectFaceReq") detectFaceReq.fields)
      mockDetectFaceRsp sampleClient (lit "detectface")
      (sampleClient.detectFaceRequest [1, 2, 3] false 0) {} 0
      sampleBody (httpStatusError 500)
      rfl (by decide)).1⟩

theorem interfaceRequest_of_marshal_error {α β : Type} (env : Env) (Q : ReqType α)
    (R : RspType β) (y : Youtu) (ifname : GoString) (req : α) (rsp : β) (urltype : Int)
    (e : GoError) (hm : Q.jsonMarshal req = .error e) :
    y.interfaceRequest env Q R ifname req rsp urltype =
      { rsp := rsp, err := some e,
        trace := if y.debug then
          [Event.stdout (lit "req: " ++ Q.goSyntax req ++ lit "\n")] else [] } := by
  simp [Youtu.interfaceRequest, hm]

theorem interfaceRequest_of_get_error {α β : Type} (env : Env) (Q : ReqType α)
    (R : RspType β) (y : Youtu) (ifname : GoString) (req : α) (rsp : β) (urltype : Int)
    (data : Bytes) (e : GoError) (hm : Q.jsonMarshal req = .ok data)
    (hg : (y.get env (y.interfaceURL ifname urltype) data).err = some e) :
    y.interfaceRequest env Q R ifname req rsp urltype =
      { rsp := rsp, err := some e,
        trace := (if y.debug then
            [Event.stdout (lit "req: " ++ Q.goSyntax req ++ lit "\n")] else []) ++
          (y.get env (y.interfaceURL ifname urltype) data).trace } := by
  simp [Youtu.interfaceRequest, hm, hg]

theorem interfaceRequest_of_decoded {α β : Type} (env : Env) (Q : ReqType α)
    (R : RspType β) (y : Youtu) (ifname : GoString) (req : α) (rsp rsp2 : β) (urltype : Int)
    (data : Bytes) (hm : Q.jsonMarshal req = .ok data)
    (hg : (y.get env (y.interfaceURL ifname urltype) data).err = none)
    (hu : R.jsonUnmarshal (y.get env (y.interfaceURL ifname urltype) data).rsp rsp =
      (rsp2, none)) :
    y.interfaceRequest env Q R ifname req rsp urltype =
      { rsp := rsp2, err := none,
        trace := (if y.debug then
            [Event.stdout (lit "req: " ++ Q.goSyntax req ++ lit "\n")] else []) ++
          (y.get env (y.interfaceURL ifname urltype) data).trace } := by
  simp [Youtu.interfaceRequest, hm, hg, hu]

theorem interfaceRequest_of_decode_error {α β : Type} (env : Env) (Q : ReqType α)
    (R : RspType β) (y : Youtu) (ifname : GoString) (req : α) (rsp rsp2 : β) (urltype : Int)
    (data : Bytes) (e : GoError) (hm : Q.jsonMarshal req = .ok data)
    (hg : (y.get env (y.interfaceURL ifname urltype) data).err = none)
    (hu : R.jsonUnmarshal (y.get env (y.interfaceURL ifname urltype) data).rsp rsp =
      (rsp2, some e)) :
    y.interfaceRequest env Q R ifname req rsp urltype =
      { rsp := rsp2,
        err := some (fmtErrorf (lit "json.Unmarshal() rsp: " ++ R.goSyntax rsp2 ++
          lit " failed: " ++ e.Error ++ lit "\n")),
        trace := (if y.debug then
            [Event.stdout (lit "req: " ++ Q.goSyntax req ++ lit "\n")] else []) ++
          (y.get env (y.interfaceURL ifname urltype) data).trace ++
          (if y.debug then
            [Event.stderr (lit "body:" ++
              (y.get env (y.interfaceURL ifname urltype) data).rsp ++ lit "\n")] else []) } := by
  simp [Youtu.interfaceRequest, hm, hg, hu]

theorem sent_debug_stdout (b : Bool) (text : GoString) :
    sent (if b = true then [Event.stdout text] else []) = [] := by
  cases b <;> rfl

theorem sent_debug_stderr (b : Bool) (text : GoString) :
    sent (if b = true then [Event.stderr text] else []) = [] := by
  cases b <;> rfl

theorem interfaceRequest_SetDebug {α β : Type} (env : Env) (Q : ReqType α) (R : RspType β)
    (y : Youtu) (ifname : GoString) (req : α) (rsp : β) (urltype : Int) (d : Bool) :
    ((y.SetDebug d).interfaceRequest env Q R ifname req rsp urltype).rsp =
        (y.interfaceRequest env Q R ifname req rsp urltype).rsp ∧
      ((y.SetDebug d).interfaceRequest env Q R ifname req rsp urltype).err =
        (y.interfaceRequest env Q R ifname req rsp urltype).err ∧
      sent ((y.SetDebug d).interfaceRequest env Q R ifname req rsp urltype).trace =
        sent (y.interfaceRequest env Q R ifname req rsp urltype).trace := by
  have hurl : (y.SetDebug d).interfaceURL ifname urltype = y.interfaceURL ifname urltype := rfl
  cases hm : Q.jsonMarshal req with
  | error e =>
    rw [interfaceRequest_of_marshal_error env Q R y ifname req rsp urltype e hm,
      interfaceRequest_of_marshal_error env Q R _ ifname req rsp urltype e hm]
    simp only [sent_debug_stdout, and_self]
  | ok data =>
    obtain ⟨g1, g2, g3⟩ := get_SetDebug env y (y.interfaceURL ifname urltype) data d
    cases hg : (y.get env (y.interfaceURL ifname urltype) data).err with
    | some e =>
      rw [interfaceRequest_of_get_error env Q R y ifname req rsp urltype data e hm hg,
        interfaceRequest_of_get_error env Q R _ ifname req rsp urltype data e hm
          (g2.trans hg)]
      simp only [hurl, sent_append, sent_debug_stdout, g3, and_self]
    | none =>
      cases hu : R.jsonUnmarshal (y.get env (y.interfaceURL ifname urltype) data).rsp rsp with
      | mk rsp2 uerr =>
        cases uerr with
        | none =>
          rw [interfaceRequest_of_decoded env Q R y ifname req rsp rsp2 urltype data hm hg hu,
            interfaceRequest_of_decoded env Q R _ ifname req rsp rsp2 urltype data hm
              (g2.trans hg) (g1 ▸ hu)]
          simp only [hurl, sent_append, sent_debug_stdout, g3, and_self]
        | some e =>
          rw [interfaceRequest_of_decode_error env Q R y ifname req rsp rsp2 urltype data e
              hm hg hu,
            interfaceRequest_of_decode_error env Q R _ ifname req rsp rsp2 urltype data e hm
              (g2.trans hg) (g1 ▸ hu)]
          simp only [hurl, sent_append, sent_debug_stdout, sent_debug_stderr, g1, g3, and_self]

/-- C5: two clients that differ only in the debug flag, given the same operation, request and
world, build the same URL and hand the same requests (URL, body, headers) to the network, and
`Youtu.interfaceRequest` returns the same error and the same response value for both; the same
holds for `Youtu.get` alone. -/
theorem debug_does_not_interfere {α β : Type} (env : Env) (Q : ReqType α) (R : RspType β)
    (y : Youtu) (ifname : GoString) (req : α) (rsp : β) (urltype : Int) :
    (y.SetDebug true).interfaceURL ifname urltype =
        (y.SetDebug false).interfaceURL ifname urltype ∧
      sent ((y.SetDebug true).interfaceRequest env Q R ifname req rsp urltype).trace =
        sent ((y.SetDebug false).interfaceRequest env Q R ifname req rsp urltype).trace ∧
      ((y.SetDebug true).interfaceRequest env Q R ifname req rsp urltype).err =
        ((y.SetDebug false).interfaceRequest env Q R ifname req rsp urltype).err ∧
      ((y.SetDebug true).interfaceRequest env Q R ifname req rsp urltype).rsp =
        ((y.SetDebug false).interfaceRequest env Q R ifname req rsp urltype).rsp ∧
      ∀ addr body : GoString,
        sent ((y.SetDebug true).get env addr body).trace =
            sent ((y.SetDebug false).get env addr body).trace ∧
          ((y.SetDebug true).get env addr body).err =
            ((y.SetDebug false).get env addr body).err ∧
          ((y.SetDebug true).get env addr body).rsp =
            ((y.SetDebug false).get env addr body).rsp := by
  obtain ⟨a1, a2, a3⟩ := interfaceRequest_SetDebug env Q R y ifname req rsp urltype true
  obtain ⟨b1, b2, b3⟩ := interfaceRequest_SetDebug env Q R y ifname req rsp urltype false
  refine ⟨rfl, a3.trans b3.symm, a2.trans b2.symm, a1.trans b1.symm, fun addr body => ?_⟩
  obtain ⟨c1, c2, c3⟩ := get_SetDebug env y addr body true
  obtain ⟨d1, d2, d3⟩ := get_SetDebug env y addr body false
  exact ⟨c3.trans d3.symm, c2.trans d2.symm, c1.trans d1.symm⟩

theorem interfaceRequest_sent {α β : Type} (env : Env) (Q : ReqType α) (R : RspType β)
    (y : Youtu) (ifname : GoString) (req : α) (rsp : β) (urltype : Int) (client : HttpClient)
    (httpreq : HttpRequest)
    (hsent : Event.send client httpreq ∈
      (y.interfaceRequest env Q R ifname req rsp urltype).trace) :
    ∃ data, Q.jsonMarshal req = .ok data ∧
      Event.send client httpreq ∈ (y.get env (y.interfaceURL ifname urltype) data).trace := by
  cases hm : Q.jsonMarshal req with
  | error e =>
    rw [interfaceRequest_of_marshal_error env Q R y ifname req rsp urltype e hm] at hsent
    cases hd : y.debug <;> simp [hd] at hsent
  | ok data =>
    refine ⟨data, rfl, ?_⟩
    cases hg : (y.get env (y.interfaceURL ifname urltype) data).err with
    | some e =>
      rw [interfaceRequest_of_get_error env Q R y ifname req rsp urltype data e hm hg] at hsent
      cases hd : y.debug <;> simpa [hd] using hsent
    | none =>
      cases hu : R.jsonUnmarshal (y.get env (y.interfaceURL ifname urltype) data).rsp rsp with
      | mk rsp2 uerr =>
        cases uerr with
        | none =>
          rw [interfaceRequest_of_decoded env Q R y ifname req rsp rsp2 urltype data hm hg hu]
            at hsent
          cases hd : y.debug <;> simpa [hd] using hsent
        | some e =>
          rw [interfaceRequest_of_decode_error env Q R y ifname req rsp rsp2 urltype data e
            hm hg hu] at hsent
          cases hd : y.debug <;> simpa [hd] using hsent

theorem interfaceRequest_of_ok_reply {α β : Type} (env : Env) (Q : ReqType α) (R : RspType β)
    (y : Youtu) (ifname : GoString) (req : α) (rsp rsp2 : β) (urltype : Int)
    (client : HttpClient) (httpreq : HttpRequest) (body : Bytes)
    (hsent : Event.send client httpreq ∈
      (y.interfaceRequest env Q R ifname req rsp urltype).trace)
    (hreply : env.Do client httpreq = .ok ⟨200, body, none⟩)
    (hdec : R.jsonUnmarshal body rsp = (rsp2, none)) :
    (y.interfaceRequest env Q R ifname req rsp urltype).err = none ∧
      (y.interfaceRequest env Q R ifname req rsp urltype).rsp = rsp2 := by
  obtain ⟨data, hm, hs⟩ := interfaceRequest_sent env Q R y ifname req rsp urltype _ _ hsent
  obtain ⟨hu, hc, hr⟩ := get_sent env y _ data client httpreq hs
  subst hc hr
  obtain ⟨h1, h2⟩ := get_of_reply env y _ data _ hu hreply
  simp only [ne_eq, not_true_eq_false, if_false] at h1 h2
  rw [interfaceRequest_of_decoded env Q R y ifname req rsp rsp2 urltype data hm h2
    (by rw [h1]; exact hdec)]
  exact ⟨rfl, rfl⟩

/-- C3: an application-level error is not a failure of the call. When the request `DetectFace`
sent gets a status-200 reply whose body decodes into a response with a non-zero error code `c`
and message `m`, `DetectFace` returns a `nil` error together with a response whose `ErrorCode` is
`c`, still non-zero, and whose `ErrorMsg` is `m`. -/
theorem DetectFace_application_error (env : Env) (R : RspType DetectFaceRsp) (y : Youtu)
    (image : Bytes) (isBigFace : Bool) (imageType : Int) (client : HttpClient)
    (httpreq : HttpRequest) (body : Bytes) (decoded : DetectFaceRsp) (c : Int) (m : GoString)
    (hsent : Event.send client httpreq ∈ (y.DetectFace env R image isBigFace imageType).trace)
    (hreply : env.Do client httpreq = .ok ⟨200, body, none⟩)
    (hdec : R.jsonUnmarshal body {} = (decoded, none))
    (hc : decoded.ErrorCode = c) (hne : c ≠ 0) (hm : decoded.ErrorMsg = m) :
    (y.DetectFace env R image isBigFace imageType).err = none ∧
      (y.DetectFace env R image isBigFace imageType).rsp.ErrorCode = c ∧
      (y.DetectFace env R image isBigFace imageType).rsp.ErrorMsg = m ∧
      c ≠ 0 := by
  obtain ⟨h1, h2⟩ := interfaceRequest_of_ok_reply env _ R y _ _ _ decoded 0 client httpreq body
    hsent hreply hdec
  unfold Youtu.DetectFace
  rw [h1, h2]
  exact ⟨rfl, hc, hm, hne⟩

/-- A concrete instance of C3: the mock server answers 200 with an error object of the service;
`DetectFace` returns a `nil` error and the response with code -1101 and its message. -/
theorem DetectFace_application_error_witness :
    Event.send ⟨5 * Second⟩
        (sampleClient.postRequest (mockEnv 200 errorReply)
          sampleURL
          sampleBody) ∈
        (sampleClient.DetectFace (mockEnv 200 errorReply) mockDetectFaceRsp
          [1, 2, 3] false 0).trace ∧
      mockDetectFaceRsp.jsonUnmarshal errorReply {} =
        ({ ErrorCode := -1101, ErrorMsg := lit "SDK_IMAGE_FACEDETECT_FAILED" }, none) ∧
      (sampleClient.DetectFace (mockEnv 200 errorReply) mockDetectFaceRsp [1, 2, 3] false 0).err =
        none ∧
      (sampleClient.DetectFace (mockEnv 200 errorReply) mockDetectFaceRsp
        [1, 2, 3] false 0).rsp.ErrorCode = -1101 ∧
      (sampleClient.DetectFace (mockEnv 200 errorReply) mockDetectFaceRsp
        [1, 2, 3] false 0).rsp.ErrorMsg = lit "SDK_IMAGE_FACEDETECT_FAILED" :=
  have hsent : Event.send ⟨5 * Second⟩
        (sampleClient.postRequest (mockEnv 200 errorReply)
          sampleURL
          sampleBody) ∈
        (sampleClient.DetectFace (mockEnv 200 errorReply) mockDetectFaceRsp
          [1, 2, 3] false 0).trace := by
    decide
  have hdec : mockDetectFaceRsp.jsonUnmarshal errorReply {} =
      ({ ErrorCode := -1101, ErrorMsg := lit "SDK_IMAGE_FACEDETECT_FAILED" }, none) := by
    decide
  have h := DetectFace_application_error (mockEnv 200 errorReply) mockDetectFaceRsp sampleClient
    [1, 2, 3] false 0 _ _ errorReply _ (-1101) (lit "SDK_IMAGE_FACEDETECT_FAILED")
    hsent rfl hdec rfl (by decide) rfl
  ⟨hsent, hdec, h.1, h.2.1, h.2.2.1⟩

theorem get_trace_no_stderr (env : Env) (y : Youtu) (addr req : GoString)
    (h : y.debug = false) (text : GoString) :
    Event.stderr text ∉ (y.get env addr req).trace := by
  cases hu : env.urlParse addr with
  | some e => rw [get_of_urlParse_some env y addr req e hu]; simp
  | none => rw [get_trace env y addr req hu]; simp [h]

/-- C4, as the code has it: when the request serializes, the transport succeeds and the returned
bytes do not decode into the response value, `Youtu.interfaceRequest` returns a non-nil error
whose text is made of the Go syntax of the response value and of the decoder error; it is the
same error with the debug flag on and off. The raw body goes to the standard error stream, as
"body:" + body + "\n", when the flag is on, and nothing goes to that stream when it is off. -/
theorem interfaceRequest_decode_error {α β : Type} (env : Env) (Q : ReqType α) (R : RspType β)
    (y : Youtu) (ifname : GoString) (req : α) (rsp rsp2 : β) (urltype : Int) (data : Bytes)
    (e : GoError) (hm : Q.jsonMarshal req = .ok data)
    (hg : (y.get env (y.interfaceURL ifname urltype) data).err = none)
    (hu : R.jsonUnmarshal (y.get env (y.interfaceURL ifname urltype) data).rsp rsp =
      (rsp2, some e)) :
    (∀ d : Bool, ((y.SetDebug d).interfaceRequest env Q R ifname req rsp urltype).err =
        some (fmtErrorf (lit "json.Unmarshal() rsp: " ++ R.goSyntax rsp2 ++
          lit " failed: " ++ e.Error ++ lit "\n"))) ∧
      Event.stderr (lit "body:" ++ (y.get env (y.interfaceURL ifname urltype) data).rsp ++
          lit "\n") ∈
        ((y.SetDebug true).interfaceRequest env Q R ifname req rsp urltype).trace ∧
      ∀ text : GoString, Event.stderr text ∉
        ((y.SetDebug false).interfaceRequest env Q R ifname req rsp urltype).trace := by
  have key : ∀ d : Bool, (y.SetDebug d).interfaceRequest env Q R ifname req rsp urltype =
      { rsp := rsp2,
        err := some (fmtErrorf (lit "json.Unmarshal() rsp: " ++ R.goSyntax rsp2 ++
          lit " failed: " ++ e.Error ++ lit "\n")),
        trace := (if d then
            [Event.stdout (lit "req: " ++ Q.goSyntax req ++ lit "\n")] else []) ++
          ((y.SetDebug d).get env (y.interfaceURL ifname urltype) data).trace ++
          (if d then
            [Event.stderr (lit "body:" ++
              (y.get env (y.interfaceURL ifname urltype) data).rsp ++ lit "\n")] else []) } := by
    intro d
    obtain ⟨g1, g2, _⟩ := get_SetDebug env y (y.interfaceURL ifname urltype) data d
    have h := interfaceRequest_of_decode_error env Q R (y.SetDebug d) ifname req rsp rsp2
      urltype data e hm (g2.trans hg) (g1 ▸ hu)
    rw [h]
    have hurl : (y.SetDebug d).interfaceURL ifname urltype = y.interfaceURL ifname urltype :=
      rfl
    have hd : (y.SetDebug d).debug = d := rfl
    rw [hurl, hd, g1]
  refine ⟨fun d => by rw [key d], ?_, ?_⟩
  · rw [key true]
    simp
  · intro text
    rw [key false]
    have := get_trace_no_stderr env (y.SetDebug false) (y.interfaceURL ifname urltype) data rfl
      text
    simpa using this

/-- A concrete instance of C4 as the code has it: the mock server answers 200 with an HTML page;
with the debug flag on, `interfaceRequest` returns the decode error and writes the body to the
standard error stream. -/
theorem interfaceRequest_decode_error_witness :
    (sampleClient.get (mockEnv 200 htmlReply) (sampleClient.interfaceURL (lit "detectface") 0)
        sampleBody).err = none ∧
      mockDetectFaceRsp.jsonUnmarshal
          (sampleClient.get (mockEnv 200 htmlReply)
            (sampleClient.interfaceURL (lit "detectface") 0) sampleBody).rsp {} =
        ({}, some syntaxError) ∧
      ((sampleClient.SetDebug true).DetectFace (mockEnv 200 htmlReply) mockDetectFaceRsp
          [1, 2, 3] false 0).err =
        some (fmtErrorf (lit "json.Unmarshal() rsp: " ++ mockDetectFaceRsp.goSyntax {} ++
          lit " failed: " ++ syntaxError.Error ++ lit "\n")) ∧
      Event.stderr (lit "body:<html>\n") ∈
        ((sampleClient.SetDebug true).DetectFace (mockEnv 200 htmlReply) mockDetectFaceRsp
          [1, 2, 3] false 0).trace :=
  have hg : (sampleClient.get (mockEnv 200 htmlReply)
      (sampleClient.interfaceURL (lit "detectface") 0) sampleBody).err = none := by
    decide
  have hu : mockDetectFaceRsp.jsonUnmarshal
      (sampleClient.get (mockEnv 200 htmlReply)
        (sampleClient.interfaceURL (lit "detectface") 0) sampleBody).rsp {} =
      ({}, some syntaxError) := by
    decide
  have h := interfaceRequest_decode_error (mockEnv 200 htmlReply)
    (structReqType (mockEnv 200 htmlReply) (lit "youtu.detectFaceReq") detectFaceReq.fields)
    mockDetectFaceRsp sampleClient (lit "detectface")
    (sampleClient.detectFaceRequest [1, 2, 3] false 0) {} {} 0 sampleBody syntaxError rfl hg hu
  ⟨hg, hu, h.1 true, h.2.1⟩

set_option maxRecDepth 100000 in
/-- C4 as stated fails: with the debug flag on and an HTML page as the status-200 reply,
`DetectFace` returns a non-nil error whose text does not contain the raw body, and it is the
very error returned with the flag off. -/
theorem decode_error_carries_no_body :
    ((sampleClient.SetDebug true).DetectFace (mockEnv 200 htmlReply) mockDetectFaceRsp
        [1, 2, 3] false 0).err ≠ none ∧
      carriesBody ((sampleClient.SetDebug true).DetectFace (mockEnv 200 htmlReply)
        mockDetectFaceRsp [1, 2, 3] false 0).err htmlReply = false ∧
      ((sampleClient.SetDebug true).DetectFace (mockEnv 200 htmlReply) mockDetectFaceRsp
          [1, 2, 3] false 0).err =
        ((sampleClient.SetDebug false).DetectFace (mockEnv 200 htmlReply) mockDetectFaceRsp
          [1, 2, 3] false 0).err := by
  refine ⟨by decide, ?_, by decide⟩
  decide

/-! ## Image-or-url selection -/

theorem EncodeToString_eq_nil (b : Bytes) : EncodeToString b = [] ↔ b = [] := by
  match b with
  | [] => simp [EncodeToString]
  | [_] => simp [EncodeToString]
  | [_, _] => simp [EncodeToString]
  | _ :: _ :: _ :: _ => simp [EncodeToString]

theorem populated_EncodeToString (b : Bytes) (h : b ≠ []) :
    populated (EncodeToString b) = true := by
  have := (EncodeToString_eq_nil b).not.mpr h
  simpa [populated] using this

theorem populated_of_ne_nil (b : Bytes) (h : b ≠ []) : populated b = true := by
  simpa [populated] using h

theorem printsKey_eq_any (fields : List Field) (key : GoString) :
    printsKey fields key =
      fields.any (fun f => !(f.omitempty && f.value.isEmpty) && f.key == key) := by
  induction fields with
  | nil => rfl
  | cons f fs ih =>
    simp only [printsKey, jsonKeys, jsonMembers] at ih ⊢
    by_cases hf : (!(f.omitempty && f.value.isEmpty)) = true
    · simp only [List.filter_cons, hf, if_true, List.map_cons, List.contains_cons, List.any_cons,
        Bool.true_and, ih]
      rw [Bool.beq_comm]
    · have hf2 : (!(f.omitempty && f.value.isEmpty)) = false := by simpa using hf
      simp only [List.filter_cons, hf2, Bool.false_eq_true, if_false, List.any_cons,
        Bool.false_and, Bool.false_or, ih]

theorem decide_eq_nil (s : GoString) : decide (s = []) = !(List.length s != 0) := by
  cases s <;> simp

theorem detectFaceReq_printsKey (r : detectFaceReq) :
    printsKey r.fields (lit "image") = populated r.Image ∧
      printsKey r.fields (lit "url") = populated r.Url := by
  simp +decide [printsKey_eq_any, detectFaceReq.fields, FieldValue.isEmpty, populated,
    beq_eq_decide, decide_eq_nil]

theorem faceShapeReq_printsKey (r : faceShapeReq) :
    printsKey r.fields (lit "image") = populated r.Image ∧
      printsKey r.fields (lit "url") = populated r.Url := by
  simp +decide [printsKey_eq_any, faceShapeReq.fields, FieldValue.isEmpty, populated,
    beq_eq_decide, decide_eq_nil]

theorem faceIdentifyReq_printsKey (r : faceIdentifyReq) :
    printsKey r.fields (lit "image") = populated r.Image ∧
      printsKey r.fields (lit "url") = populated r.Url := by
  simp +decide [printsKey_eq_any, faceIdentifyReq.fields, FieldValue.isEmpty, populated,
    beq_eq_decide, decide_eq_nil]

theorem newPersonReq_printsKey (r : newPersonReq) :
    printsKey r.fields (lit "image") = populated r.Image ∧
      printsKey r.fields (lit "url") = populated r.Url := by
  simp +decide [printsKey_eq_any, newPersonReq.fields, FieldValue.isEmpty, populated,
    beq_eq_decide, decide_eq_nil]

theorem FuzzyDetectReq_printsKey (r : FuzzyDetectReq) :
    printsKey r.fields (lit "image") = populated r.Image ∧
      printsKey r.fields (lit "url") = populated r.Url := by
  simp +decide [printsKey_eq_any, FuzzyDetectReq.fields, FieldValue.isEmpty, populated,
    beq_eq_decide, decide_eq_nil]

theorem FoodDetectReq_printsKey (r : FoodDetectReq) :
    printsKey r.fields (lit "image") = populated r.Image ∧
      printsKey r.fields (lit "url") = populated r.Url := by
  simp +decide [printsKey_eq_any, FoodDetectReq.fields, FieldValue.isEmpty, populated,
    beq_eq_decide, decide_eq_nil]

theorem ImageTagReq_printsKey (r : ImageTagReq) :
    printsKey r.fields (lit "image") = populated r.Image ∧
      printsKey r.fields (lit "url") = populated r.Url := by
  simp +decide [printsKey_eq_any, ImageTagReq.fields, FieldValue.isEmpty, populated,
    beq_eq_decide, decide_eq_nil]

theorem ImagePornReq_printsKey (r : ImagePornReq) :
    printsKey r.fields (lit "image") = populated r.Image ∧
      printsKey r.fields (lit "url") = populated r.Url := by
  simp +decide [printsKey_eq_any, ImagePornReq.fields, FieldValue.isEmpty, populated,
    beq_eq_decide, decide_eq_nil]

theorem IdcardOcrReq_printsKey (r : IdcardOcrReq) :
    printsKey r.fields (lit "image") = populated r.Image ∧
      printsKey r.fields (lit "url") = populated r.Url := by
  simp +decide [printsKey_eq_any, IdcardOcrReq.fields, FieldValue.isEmpty, populated,
    beq_eq_decide, decide_eq_nil]

theorem NamecardOcrReq_printsKey (r : NamecardOcrReq) :
    printsKey r.fields (lit "image") = populated r.Image ∧
      printsKey r.fields (lit "url") = populated r.Url := by
  simp +decide [printsKey_eq_any, NamecardOcrReq.fields, FieldValue.isEmpty, populated,
    beq_eq_decide, decide_eq_nil]

theorem faceVerifyReq_printsKey (r : faceVerifyReq) :
    printsKey r.fields (lit "image") = true ∧
      printsKey r.fields (lit "url") = populated r.Url := by
  simp +decide [printsKey_eq_any, faceVerifyReq.fields, FieldValue.isEmpty, populated,
    beq_eq_decide, decide_eq_nil]

theorem faceCompareReq_printsKey (r : faceCompareReq) :
    printsKey r.fields (lit "imageA") = populated r.ImageA ∧
      printsKey r.fields (lit "urlA") = populated r.UrlA ∧
      printsKey r.fields (lit "imageB") = populated r.ImageB ∧
      printsKey r.fields (lit "urlB") = populated r.UrlB := by
  simp +decide [printsKey_eq_any, faceCompareReq.fields, FieldValue.isEmpty, populated,
    beq_eq_decide, decide_eq_nil]

theorem addFaceReq_printsKey (r : addFaceReq) :
    printsKey r.fields (lit "images") = populatedSlice r.Images ∧
      printsKey r.fields (lit "urls") = populatedSlice r.Urls := by
  simp +decide [printsKey_eq_any, addFaceReq.fields, FieldValue.isEmpty, populatedSlice,
    beq_eq_decide]
  constructor
  · cases r.Images.len <;> simp
  · cases r.Urls.len <;> simp

/-- C6: for every byte sequence, every image-bearing operation builds a request whose image field
is the standard base64 text of the bytes and whose url field is empty when the image-type
indicator is 0, and whose url field is the bytes as a string, not encoded, and whose image field
is empty for every other indicator. `FaceCompare` does so for each of its two images, `AddFace`
for each image of its list (the other list stays `nil`). -/
theorem image_or_url_selection (y : Youtu) (b imageA imageB : Bytes) (images : List Bytes)
    (t : Int) (isBigFace retImage : Bool) (personID personName groupID tag seq : GoString)
    (groupIDs : Slice GoString) (cardType : Int) :
    selected t b (y.detectFaceRequest b isBigFace t).Image
        (y.detectFaceRequest b isBigFace t).Url ∧
      selected t b (y.faceShapeRequest b isBigFace t).Image
        (y.faceShapeRequest b isBigFace t).Url ∧
      (selected t imageA (y.faceCompareRequest imageA imageB t).ImageA
          (y.faceCompareRequest imageA imageB t).UrlA ∧
        selected t imageB (y.faceCompareRequest imageA imageB t).ImageB
          (y.faceCompareRequest imageA imageB t).UrlB) ∧
      selected t b (y.faceVerifyRequest personID b t).Image
        (y.faceVerifyRequest personID b t).Url ∧
      selected t b (y.faceIdentifyRequest groupID b t).Image
        (y.faceIdentifyRequest groupID b t).Url ∧
      selected t b (y.newPersonRequest personID personName groupIDs b tag t).Image
        (y.newPersonRequest personID personName groupIDs b tag t).Url ∧
      (if t = 0 then
          (y.addFaceRequest personID images tag t).Images = some (images.map EncodeToString) ∧
            (y.addFaceRequest personID images tag t).Urls = none
        else
          (y.addFaceRequest personID images tag t).Urls = some images ∧
            (y.addFaceRequest personID images tag t).Images = none) ∧
      selected t b (y.fuzzyDetectRequest b t seq).Image (y.fuzzyDetectRequest b t seq).Url ∧
      selected t b (y.foodDetectRequest b t seq).Image (y.foodDetectRequest b t seq).Url ∧
      selected t b (y.imageTagRequest b t seq).Image (y.imageTagRequest b t seq).Url ∧
      selected t b (y.imagePornRequest b t seq).Image (y.imagePornRequest b t seq).Url ∧
      selected t b (y.idcardOcrRequest b t cardType seq).Image
        (y.idcardOcrRequest b t cardType seq).Url ∧
      selected t b (y.nameCardOcrRequest b t retImage seq).Image
        (y.nameCardOcrRequest b t retImage seq).Url := by
  by_cases ht : t = 0 <;>
    simp [selected, ht, Youtu.detectFaceRequest, Youtu.faceShapeRequest,
      Youtu.faceCompareRequest, Youtu.faceVerifyRequest, Youtu.faceIdentifyRequest,
      Youtu.newPersonRequest, Youtu.addFaceRequest, Youtu.fuzzyDetectRequest,
      Youtu.foodDetectRequest, Youtu.imageTagRequest, Youtu.imagePornRequest,
      Youtu.idcardOcrRequest, Youtu.nameCardOcrRequest]

/-- C7 as stated fails: `DetectFace` on an empty image with indicator 0 builds a request whose
image and url fields are both empty, and `json.Marshal` prints neither key, only `app_id`. -/
theorem empty_image_populates_neither :
    ¬ oneOf (sampleClient.detectFaceRequest [] false 0).Image
        (sampleClient.detectFaceRequest [] false 0).Url ∧
      ¬ printsOneOf (sampleClient.detectFaceRequest [] false 0).fields
        (lit "image") (lit "url") ∧
      populated (sampleClient.detectFaceRequest [] false 0).Image = false ∧
      populated (sampleClient.detectFaceRequest [] false 0).Url = false ∧
      printsKey (sampleClient.detectFaceRequest [] false 0).fields (lit "image") = false ∧
      printsKey (sampleClient.detectFaceRequest [] false 0).fields (lit "url") = false ∧
      jsonKeys (sampleClient.detectFaceRequest [] false 0).fields = [lit "app_id"] := by
  unfold oneOf printsOneOf
  decide

/-- C7, as the code has it: for a non-empty image byte input and every image-type indicator,
each image-bearing operation builds a request with exactly one of the image field and the url
field populated, and, `FaceVerify` apart, `json.Marshal` prints exactly one of the two keys.
`FaceCompare` does so for each of its two non-empty images, `AddFace` for its non-empty list of
images with the fields `Images` and `Urls`. -/
theorem image_xor_url (y : Youtu) (b imageA imageB : Bytes) (images : List Bytes)
    (t : Int) (isBigFace retImage : Bool) (personID personName groupID tag seq : GoString)
    (groupIDs : Slice GoString) (cardType : Int)
    (hb : b ≠ []) (hA : imageA ≠ []) (hB : imageB ≠ []) (hI : images ≠ []) :
    oneOf (y.detectFaceRequest b isBigFace t).Image (y.detectFaceRequest b isBigFace t).Url ∧
    printsOneOf (y.detectFaceRequest b isBigFace t).fields (lit "image") (lit "url") ∧
      oneOf (y.faceShapeRequest b isBigFace t).Image (y.faceShapeRequest b isBigFace t).Url ∧
      printsOneOf (y.faceShapeRequest b isBigFace t).fields (lit "image") (lit "url") ∧
      oneOf (y.faceIdentifyRequest groupID b t).Image (y.faceIdentifyRequest groupID b t).Url ∧
      printsOneOf (y.faceIdentifyRequest groupID b t).fields (lit "image") (lit "url") ∧
      oneOf (y.newPersonRequest personID personName groupIDs b tag t).Image
        (y.newPersonRequest personID personName groupIDs b tag t).Url ∧
      printsOneOf (y.newPersonRequest personID personName groupIDs b tag t).fields
        (lit "image") (lit "url") ∧
      oneOf (y.fuzzyDetectRequest b t seq).Image (y.fuzzyDetectRequest b t seq).Url ∧
      printsOneOf (y.fuzzyDetectRequest b t seq).fields (lit "image") (lit "url") ∧
      oneOf (y.foodDetectRequest b t seq).Image (y.foodDetectRequest b t seq).Url ∧
      printsOneOf (y.foodDetectRequest b t seq).fields (lit "image") (lit "url") ∧
      oneOf (y.imageTagRequest b t seq).Image (y.imageTagRequest b t seq).Url ∧
      printsOneOf (y.imageTagRequest b t seq).fields (lit "image") (lit "url") ∧
      oneOf (y.imagePornRequest b t seq).Image (y.imagePornRequest b t seq).Url ∧
      printsOneOf (y.imagePornRequest b t seq).fields (lit "image") (lit "url") ∧
      oneOf (y.idcardOcrRequest b t cardType seq).Image
        (y.idcardOcrRequest b t cardType seq).Url ∧
      printsOneOf (y.idcardOcrRequest b t cardType seq).fields (lit "image") (lit "url") ∧
      oneOf (y.nameCardOcrRequest b t retImage seq).Image
        (y.nameCardOcrRequest b t retImage seq).Url ∧
      printsOneOf (y.nameCardOcrRequest b t retImage seq).fields (lit "image") (lit "url") ∧
      oneOf (y.faceVerifyRequest personID b t).Image (y.faceVerifyRequest personID b t).Url ∧
      oneOf (y.faceCompareRequest imageA imageB t).ImageA
        (y.faceCompareRequest imageA imageB t).UrlA ∧
      oneOf (y.faceCompareRequest imageA imageB t).ImageB
        (y.faceCompareRequest imageA imageB t).UrlB ∧
      printsOneOf (y.faceCompareRequest imageA imageB t).fields (lit "imageA") (lit "urlA") ∧
      printsOneOf (y.faceCompareRequest imageA imageB t).fields (lit "imageB") (lit "urlB") ∧
      exactlyOne (populatedSlice (y.addFaceRequest personID images tag t).Images)
        (populatedSlice (y.addFaceRequest personID images tag t).Urls) = true ∧
      printsOneOf (y.addFaceRequest personID images tag t).fields (lit "images") (lit "urls") := by
  have e1 := populated_EncodeToString b hb
  have e2 := populated_EncodeToString imageA hA
  have e3 := populated_EncodeToString imageB hB
  have p1 := populated_of_ne_nil b hb
  have p2 := populated_of_ne_nil imageA hA
  have p3 := populated_of_ne_nil imageB hB
  have p0 : populated [] = false := rfl
  have s1 : populatedSlice (some (images.map EncodeToString)) = true := by
    simpa [populatedSlice, Slice.len] using hI
  have s2 : populatedSlice (some images) = true := by
    simpa [populatedSlice, Slice.len] using hI
  have s0 : populatedSlice none = false := rfl
  simp only [oneOf, printsOneOf, detectFaceReq_printsKey, faceShapeReq_printsKey,
    faceIdentifyReq_printsKey,
    newPersonReq_printsKey, FuzzyDetectReq_printsKey, FoodDetectReq_printsKey,
    ImageTagReq_printsKey, ImagePornReq_printsKey, IdcardOcrReq_printsKey,
    NamecardOcrReq_printsKey, faceCompareReq_printsKey, addFaceReq_printsKey]
  by_cases ht : t = 0 <;>
    simp [ht, exactlyOne, e1, e2, e3, p1, p2, p3, p0, s1, s2, s0, Youtu.detectFaceRequest,
      Youtu.faceShapeRequest, Youtu.faceCompareRequest, Youtu.faceVerifyRequest,
      Youtu.faceIdentifyRequest, Youtu.newPersonRequest, Youtu.addFaceRequest,
      Youtu.fuzzyDetectRequest, Youtu.foodDetectRequest, Youtu.imageTagRequest,
      Youtu.imagePornRequest, Youtu.idcardOcrRequest, Youtu.nameCardOcrRequest]

/-- A concrete instance of C7 as the code has it: `DetectFace` on the image bytes 1, 2, 3 with
indicator 0 populates the image field only and prints the key `image` only. -/
theorem image_xor_url_witness :
    ([1, 2, 3] : Bytes) ≠ [] ∧ ([4, 5] : Bytes) ≠ [] ∧ ([6] : Bytes) ≠ [] ∧
      ([[1, 2, 3]] : List Bytes) ≠ [] ∧
      oneOf (sampleClient.detectFaceRequest [1, 2, 3] false 0).Image
        (sampleClient.detectFaceRequest [1, 2, 3] false 0).Url ∧
      printsOneOf (sampleClient.detectFaceRequest [1, 2, 3] false 0).fields
        (lit "image") (lit "url") :=
  have h := image_xor_url sampleClient [1, 2, 3] [4, 5] [6] [[1, 2, 3]] 0 false false
    [] [] [] [] [] none 0 (by decide) (by decide) (by decide) (by decide)
  ⟨by decide, by decide, by decide, by decide, h.1, h.2.1⟩

/-- The two scenarios of the spec on `DetectFace`: a 10-byte inline image with indicator 0 goes,
base64-encoded, to the image field; the bytes of "http://x/y.jpg" with indicator 1 go, as they
are, to the url field. -/
theorem detectFaceRequest_scenarios :
    sampleClient.detectFaceRequest [0, 1, 2, 3, 4, 5, 6, 7, 8, 9] false 0 =
        { AppID := lit "1", Image := lit "AAECAwQFBgcICQ==", Mode := 0, Url := [] } ∧
      sampleClient.detectFaceRequest (lit "http://x/y.jpg") false 1 =
        { AppID := lit "1", Image := [], Mode := 0, Url := lit "http://x/y.jpg" } := by
  decide

/-- The struct `faceVerifyReq` has no `omitempty` on `image`: for a url input `FaceVerify` builds
a request with the url field alone populated, yet `json.Marshal` prints both keys. -/
theorem faceVerify_url_prints_both_keys :
    populated (sampleClient.faceVerifyRequest (lit "p1") (lit "http://x/y.jpg") 1).Image =
        false ∧
      jsonKeys (sampleClient.faceVerifyRequest (lit "p1") (lit "http://x/y.jpg") 1).fields =
        [lit "app_id", lit "image", lit "person_id", lit "url"] := by
  decide

/-! ## The face-detection request and the wire format -/

theorem formatInt_ofNat (n : Nat) : formatInt (Int.ofNat n) = formatNat n := by
  have h : ¬ (Int.ofNat n < 0) := not_lt.mpr (Int.ofNat_nonneg n)
  simp only [formatInt, h, if_false]
  rfl

theorem formatInt_natCast (n : Nat) : formatInt (n : Int) = formatNat n :=
  formatInt_ofNat n

theorem decValue_formatNat (n : Nat) : decValue (formatNat n) = n :=
  decValue_decDigits (n + 1) n (by omega)

theorem DetectFace_sent (env : Env) (R : RspType DetectFaceRsp) (y : Youtu) (image : Bytes)
    (isBigFace : Bool) (imageType : Int) :
    sent (y.DetectFace env R image isBigFace imageType).trace =
      sent (y.get env (y.host ++ lit "/youtu/api/" ++ lit "detectface")
        (env.jsonObject
          (jsonMembers (y.detectFaceRequest image isBigFace imageType).fields))).trace := by
  have hQ : (structReqType env (lit "youtu.detectFaceReq") detectFaceReq.fields).jsonMarshal
      (y.detectFaceRequest image isBigFace imageType) =
      .ok (env.jsonObject
        (jsonMembers (y.detectFaceRequest image isBigFace imageType).fields)) := rfl
  have hurl : y.interfaceURL (lit "detectface") 0 =
      y.host ++ lit "/youtu/api/" ++ lit "detectface" := rfl
  unfold Youtu.DetectFace
  generalize hg : y.get env (y.interfaceURL (lit "detectface") 0)
    (env.jsonObject (jsonMembers (y.detectFaceRequest image isBigFace imageType).fields)) = g
  rw [← hurl, hg]
  cases hge : g.err with
  | some e =>
    rw [interfaceRequest_of_get_error env _ R y _ _ _ 0 _ e hQ (by rw [hg]; exact hge), hg]
    simp only [sent_append, sent_debug_stdout, List.nil_append]
  | none =>
    cases hu : R.jsonUnmarshal g.rsp {} with
    | mk rsp2 uerr =>
      cases uerr with
      | none =>
        rw [interfaceRequest_of_decoded env _ R y _ _ _ rsp2 0 _ hQ (by rw [hg]; exact hge)
          (by rw [hg]; exact hu), hg]
        simp only [sent_append, sent_debug_stdout, List.nil_append]
      | some e =>
        rw [interfaceRequest_of_decode_error env _ R y _ _ _ rsp2 0 _ e hQ
          (by rw [hg]; exact hge) (by rw [hg]; exact hu), hg]
        simp only [sent_append, sent_debug_stdout, sent_debug_stderr, List.nil_append,
          List.append_nil]

theorem get_sent_list (env : Env) (y : Youtu) (addr req : GoString) :
    sent (y.get env addr req).trace =
      match env.urlParse addr with
      | none => [(⟨5 * Second⟩, y.postRequest env addr req)]
      | some _ => [] := by
  cases hu : env.urlParse addr with
  | some e => rw [get_of_urlParse_some env y addr req e hu]; rfl
  | none =>
    rw [get_trace env y addr req hu, sent_append, sent_debug_stderr]
    rfl

theorem lit_detectface_url :
    lit "/youtu/api/" ++ lit "detectface" = lit "/youtu/api/detectface" := by
  decide

/-- C11, as the code has it: for every client with host `h` and app id `a`, every image `b` and
every detection mode, `DetectFace` with image-type indicator 0 builds the request whose `app_id`
is the decimal text of `a` (it reads back as `a`; for `a = 1` it is "1") and whose `image` is the
base64 text of `b`, with an empty `url`. If `http.NewRequest` accepts the address `h` +
"/youtu/api/detectface", it hands exactly one request to the network, a POST to that address
whose body is the JSON text of that request; if `http.NewRequest` rejects the address, it hands
none and returns the error of `http.NewRequest`. `json.Marshal` prints `app_id` always, `image`
for a non-empty `b`, and no `image` member for an empty `b`. -/
theorem DetectFace_request (env : Env) (R : RspType DetectFaceRsp) (y : Youtu) (b : Bytes)
    (isBigFace : Bool) :
    (y.detectFaceRequest b isBigFace 0).AppID = formatNat y.appSign.appID ∧
      decValue (y.detectFaceRequest b isBigFace 0).AppID = y.appSign.appID ∧
      formatNat 1 = lit "1" ∧
      (y.detectFaceRequest b isBigFace 0).Image = EncodeToString b ∧
      (y.detectFaceRequest b isBigFace 0).Url = [] ∧
      sent (y.DetectFace env R b isBigFace 0).trace =
        (match env.urlParse (y.host ++ lit "/youtu/api/detectface") with
          | none =>
            [(⟨5 * Second⟩,
              { Method := lit "POST",
                URL := y.host ++ lit "/youtu/api/detectface",
                Body := env.jsonObject (jsonMembers (y.detectFaceRequest b isBigFace 0).fields),
                Header := [(lit "Authorization", y.sign env),
                  (lit "Content-Type", lit "text/json"), (lit "User-Agent", lit ""),
                  (lit "Accept", lit "*/*"), (lit "Expect", lit "100-continue")] })]
          | some _ => []) ∧
      (∀ e, env.urlParse (y.host ++ lit "/youtu/api/detectface") = some e →
        (y.DetectFace env R b isBigFace 0).err = some e) ∧
      (lit "app_id", FieldValue.string (formatNat y.appSign.appID)) ∈
        jsonMembers (y.detectFaceRequest b isBigFace 0).fields ∧
      (b ≠ [] → (lit "image", FieldValue.string (EncodeToString b)) ∈
        jsonMembers (y.detectFaceRequest b isBigFace 0).fields) ∧
      (b = [] →
        printsKey (y.detectFaceRequest b isBigFace 0).fields (lit "image") = false) := by
  have hA : (y.detectFaceRequest b isBigFace 0).AppID = formatNat y.appSign.appID := by
    simp [Youtu.detectFaceRequest, formatInt_natCast]
  have hI : (y.detectFaceRequest b isBigFace 0).Image = EncodeToString b := by
    simp [Youtu.detectFaceRequest]
  refine ⟨hA, ?_, by decide, hI, by simp [Youtu.detectFaceRequest], ?_, ?_, ?_, ?_, ?_⟩
  · rw [hA]
    exact decValue_formatNat _
  · rw [DetectFace_sent, get_sent_list, List.append_assoc, lit_detectface_url]
    rfl
  · intro e he
    have hurl : y.interfaceURL (lit "detectface") 0 =
        y.host ++ lit "/youtu/api/detectface" := by
      rw [← lit_detectface_url, ← List.append_assoc]
      rfl
    have hg := get_of_urlParse_some env y (y.interfaceURL (lit "detectface") 0)
      (env.jsonObject (jsonMembers (y.detectFaceRequest b isBigFace 0).fields)) e
      (by rw [hurl]; exact he)
    unfold Youtu.DetectFace
    rw [interfaceRequest_of_get_error env _ R y _ _ _ 0 _ e rfl (by rw [hg])]
  · simp [jsonMembers, detectFaceReq.fields, hA]
  · intro hb
    have hne : EncodeToString b ≠ [] := (EncodeToString_eq_nil b).not.mpr hb
    simp [jsonMembers, detectFaceReq.fields, hI, FieldValue.isEmpty, hne]
  · intro hb
    rw [(detectFaceReq_printsKey _).1, hI, hb]
    rfl

/-- C11 as stated fails: on a host whose address `http.NewRequest` rejects, `DetectFace` with
indicator 0 sends no request at all and returns the error of `http.NewRequest`; and on the
default host, for an empty image, the body it sends has the member `app_id` only, no `image`. -/
theorem DetectFace_rejected_address_sends_nothing :
    badClient.interfaceURL (lit "detectface") 0 = badURL ∧
      sent (badClient.DetectFace (strictEnv 200 faceReply) mockDetectFaceRsp
        [1, 2, 3] false 0).trace = [] ∧
      (badClient.DetectFace (strictEnv 200 faceReply) mockDetectFaceRsp
        [1, 2, 3] false 0).err = some parseError ∧
      sent (sampleClient.DetectFace (mockEnv 200 faceReply) mockDetectFaceRsp
        [] false 0).trace =
        [(⟨5 * Second⟩,
          sampleClient.postRequest (mockEnv 200 faceReply) sampleURL emptyImageBody)] := by
  refine ⟨?_, ?_, ?_, ?_⟩ <;> decide

/-- C14, as the code has it: for every address and body, `Youtu.get` hands at most one request
to the network. If `http.NewRequest` accepts the address it hands exactly one, with method POST,
the given address and the given body unchanged, and the header entries Authorization = the
token of `sign`, Content-Type = "text/json", User-Agent (with the empty string), Accept = "*/*"
and Expect = "100-continue", in this order, each key once. If `http.NewRequest` rejects the
address, `get` builds no request, does nothing and returns that error with no body. -/
theorem get_wire_format (env : Env) (y : Youtu) (addr req : GoString) :
    sent (y.get env addr req).trace =
        (match env.urlParse addr with
          | none =>
            [(⟨5 * Second⟩,
              { Method := lit "POST", URL := addr, Body := req,
                Header := [(lit "Authorization", y.sign env),
                  (lit "Content-Type", lit "text/json"), (lit "User-Agent", lit ""),
                  (lit "Accept", lit "*/*"), (lit "Expect", lit "100-continue")] })]
          | some _ => []) ∧
      (sent (y.get env addr req).trace).length ≤ 1 ∧
      (∀ p ∈ sent (y.get env addr req).trace,
        p.2.Header.map Prod.fst =
          [lit "Authorization", lit "Content-Type", lit "User-Agent", lit "Accept",
            lit "Expect"]) ∧
      [lit "Authorization", lit "Content-Type", lit "User-Agent", lit "Accept",
        lit "Expect"].Nodup ∧
      (∀ e, env.urlParse addr = some e →
        y.get env addr req = { rsp := [], err := some e, trace := [] }) := by
  have h := get_sent_list env y addr req
  refine ⟨h, ?_, ?_, by decide, fun e he => get_of_urlParse_some env y addr req e he⟩
  · rw [h]
    cases env.urlParse addr <;> simp
  · intro p hp
    rw [h] at hp
    cases hu : env.urlParse addr with
    | some e => simp [hu] at hp
    | none =>
      simp only [hu, List.mem_singleton] at hp
      rw [hp]
      rfl

/-- C14 as stated fails: for an address that `http.NewRequest` rejects, `Youtu.get` builds no
request: it hands nothing to the network and returns the error of `http.NewRequest`. -/
theorem get_rejected_address_builds_nothing :
    (strictEnv 200 faceReply).urlParse badURL = some parseError ∧
      sent (sampleClient.get (strictEnv 200 faceReply) badURL sampleBody).trace = [] ∧
      sampleClient.get (strictEnv 200 faceReply) badURL sampleBody =
        { rsp := [], err := some parseError, trace := [] } := by
  refine ⟨?_, ?_, ?_⟩ <;> decide

/-! ## Decoding the reply -/

theorem decodeItems_length {α : Type} (elem : JSON → α → α × Option GoError) (zero : α) :
    ∀ (items : List JSON) (old : List α),
      (decodeItems elem zero items old).length = items.length := by
  intro items
  induction items with
  | nil => intro old; rfl
  | cons j js ih =>
    intro old
    cases old with
    | nil => simp [decodeItems, ih]
    | cons o os => simp [decodeItems, ih]

theorem foldl_store_err {α : Type} (store : α → GoString → JSON → α × Option GoError) :
    ∀ (members : List (GoString × JSON)) (acc : α × Option GoError),
      acc.2 = none → (∀ m ∈ members, ∀ r, (store r m.1 m.2).2 = none) →
      (members.foldl
        (fun acc m => ((store acc.1 m.1 m.2).1, firstError [acc.2, (store acc.1 m.1 m.2).2]))
        acc).2 = none := by
  intro members
  induction members with
  | nil => intro acc h _; exact h
  | cons m ms ih =>
    intro acc h hok
    rw [List.foldl_cons]
    apply ih
    · have := hok m (List.mem_cons_self m ms) acc.1
      simp [firstError, h, this]
    · intro m2 hm2
      exact hok m2 (List.mem_cons_of_mem m hm2)

theorem foldl_store_proj {α β : Type} (store : α → GoString → JSON → α × Option GoError)
    (proj : α → β) (sel : GoString × JSON → Bool) (v : β) :
    ∀ (members : List (GoString × JSON)) (acc : α × Option GoError),
      (∀ m ∈ members, sel m = true → ∀ r, proj (store r m.1 m.2).1 = v) →
      (∀ m ∈ members, sel m = false → ∀ r, proj (store r m.1 m.2).1 = proj r) →
      proj (members.foldl
        (fun acc m => ((store acc.1 m.1 m.2).1, firstError [acc.2, (store acc.1 m.1 m.2).2]))
        acc).1 = if members.any sel then v else proj acc.1 := by
  intro members
  induction members with
  | nil => intro acc _ _; rfl
  | cons m ms ih =>
    intro acc hsel hnot
    rw [List.foldl_cons, ih _ (fun m2 hm2 => hsel m2 (List.mem_cons_of_mem m hm2))
      (fun m2 hm2 => hnot m2 (List.mem_cons_of_mem m hm2))]
    cases hm : sel m with
    | true =>
      simp only [List.any_cons, hm, Bool.true_or, if_true]
      rw [hsel m (List.mem_cons_self m ms) hm acc.1]
      split <;> rfl
    | false =>
      simp only [List.any_cons, hm, Bool.false_or]
      rw [hnot m (List.mem_cons_self m ms) hm acc.1]

theorem fieldIndex_session_id : fieldIndex DetectFaceRsp.names (lit "session_id") = some 0 := by
  decide

theorem fieldIndex_face : fieldIndex DetectFaceRsp.names (lit "face") = some 3 := by
  decide

theorem DetectFaceRsp_store_SessionID (std : JSONText) (r : DetectFaceRsp) (key : GoString)
    (j : JSON) :
    (DetectFaceRsp.store std r key j).1.SessionID =
      if fieldIndex DetectFaceRsp.names key = some 0 then (storeString j r.SessionID).1
      else r.SessionID := by
  unfold DetectFaceRsp.store
  split <;> simp_all

theorem DetectFaceRsp_store_Face (std : JSONText) (r : DetectFaceRsp) (key : GoString)
    (j : JSON) :
    (DetectFaceRsp.store std r key j).1.Face =
      if fieldIndex DetectFaceRsp.names key = some 3 then
        (storeSlice (lit "[]youtu.Face")
          (decodeStruct (lit "youtu.Face") (Face.store std)) {} j r.Face).1
      else r.Face := by
  unfold DetectFaceRsp.store
  split <;> simp_all

theorem DetectFaceRsp_decodeObject (std : JSONText) (members : List (GoString × JSON))
    (s : GoString) (n : Nat)
    (hsession : boundTo DetectFaceRsp.names (lit "session_id") members
      (fun j => j = JSON.string s))
    (hface : boundTo DetectFaceRsp.names (lit "face") members
      (fun j => ∃ faces, j = JSON.array faces ∧ faces.length = n))
    (hok : ∀ m ∈ members, ∀ r, (DetectFaceRsp.store std r m.1 m.2).2 = none)
    (r : DetectFaceRsp) :
    (decodeObject (DetectFaceRsp.store std) members r).2 = none ∧
      (decodeObject (DetectFaceRsp.store std) members r).1.SessionID = s ∧
      (decodeObject (DetectFaceRsp.store std) members r).1.Face.len = n := by
  unfold decodeObject
  refine ⟨foldl_store_err _ members (r, none) rfl hok, ?_, ?_⟩
  · rw [foldl_store_proj (DetectFaceRsp.store std) (fun x => x.SessionID)
      (fun m => decide (fieldIndex DetectFaceRsp.names m.1 = some 0)) s members (r, none)]
    · obtain ⟨⟨v, hv⟩, _⟩ := hsession
      have : members.any
          (fun m => decide (fieldIndex DetectFaceRsp.names m.1 = some 0)) = true := by
        rw [List.any_eq_true]
        exact ⟨_, hv, by simp [fieldIndex_session_id]⟩
      simp [this]
    · intro m hm hsel r2
      have hidx : fieldIndex DetectFaceRsp.names m.1 = some 0 := by simpa using hsel
      have hval := hsession.2 m hm (by rw [hidx, fieldIndex_session_id])
      simp only at hval
      rw [DetectFaceRsp_store_SessionID, if_pos hidx, hval]
      rfl
    · intro m hm hsel r2
      have hidx : ¬ fieldIndex DetectFaceRsp.names m.1 = some 0 := by simpa using hsel
      rw [DetectFaceRsp_store_SessionID, if_neg hidx]
  · rw [foldl_store_proj (DetectFaceRsp.store std) (fun x => x.Face.len)
      (fun m => decide (fieldIndex DetectFaceRsp.names m.1 = some 3)) n members (r, none)]
    · obtain ⟨⟨v, hv⟩, _⟩ := hface
      have : members.any
          (fun m => decide (fieldIndex DetectFaceRsp.names m.1 = some 3)) = true := by
        rw [List.any_eq_true]
        exact ⟨_, hv, by simp [fieldIndex_face]⟩
      simp [this]
    · intro m hm hsel r2
      have hidx : fieldIndex DetectFaceRsp.names m.1 = some 3 := by simpa using hsel
      obtain ⟨faces, hval, hlen⟩ := hface.2 m hm (by rw [hidx, fieldIndex_face])
      simp only [DetectFaceRsp_store_Face, if_pos hidx, hval, storeSlice, Slice.len,
        Option.getD_some, List.length_map, decodeItems_length, hlen]
    · intro m hm hsel r2
      have hidx : ¬ fieldIndex DetectFaceRsp.names m.1 = some 3 := by simpa using hsel
      simp only [DetectFaceRsp_store_Face, if_neg hidx]

/-- C12, as the code has it: when the request `DetectFace` sent gets a status-200 reply whose
body is a JSON object in which `session_id` is bound to a string `s` and `face` to a list of `n`
items, and in which `json.Unmarshal` rejects no member (every member that selects a field of
`DetectFaceRsp`, and of `Face` inside the list, carries a value of the type of that field),
`DetectFace` returns a `nil` error and a response with `SessionID = s` and a `Face` list of
length `n`. -/
theorem DetectFace_decodes (env : Env) (std : JSONText) (goSyntax : DetectFaceRsp → GoString)
    (y : Youtu) (image : Bytes) (isBigFace : Bool) (imageType : Int) (client : HttpClient)
    (httpreq : HttpRequest) (body : Bytes) (members : List (GoString × JSON)) (s : GoString)
    (n : Nat)
    (hsent : Event.send client httpreq ∈
      (y.DetectFace env (DetectFaceRsp.rspType std goSyntax) image isBigFace imageType).trace)
    (hreply : env.Do client httpreq = .ok ⟨200, body, none⟩)
    (hparse : std.parse body = .ok (JSON.object members))
    (hsession : boundTo DetectFaceRsp.names (lit "session_id") members
      (fun j => j = JSON.string s))
    (hface : boundTo DetectFaceRsp.names (lit "face") members
      (fun j => ∃ faces, j = JSON.array faces ∧ faces.length = n))
    (hok : ∀ m ∈ members, ∀ r, (DetectFaceRsp.store std r m.1 m.2).2 = none) :
    (y.DetectFace env (DetectFaceRsp.rspType std goSyntax) image isBigFace imageType).err =
        none ∧
      (y.DetectFace env (DetectFaceRsp.rspType std goSyntax) image isBigFace
        imageType).rsp.SessionID = s ∧
      (y.DetectFace env (DetectFaceRsp.rspType std goSyntax) image isBigFace
        imageType).rsp.Face.len = n := by
  obtain ⟨d1, d2, d3⟩ := DetectFaceRsp_decodeObject std members s n hsession hface hok {}
  have hdec : (DetectFaceRsp.rspType std goSyntax).jsonUnmarshal body {} =
      ((decodeObject (DetectFaceRsp.store std) members {}).1, none) := by
    simp only [DetectFaceRsp.rspType, unmarshalStruct, hparse, decodeStruct]
    exact Prod.ext rfl d1
  obtain ⟨h1, h2⟩ := interfaceRequest_of_ok_reply env _ (DetectFaceRsp.rspType std goSyntax) y
    _ _ _ _ 0 client httpreq body hsent hreply hdec
  unfold Youtu.DetectFace
  rw [h1, h2]
  exact ⟨rfl, d2, d3⟩

/-- A concrete instance of C12 as the code has it: for the reply body
`{"session_id":"s1","face":[]}` of the spec, `DetectFace` returns a `nil` error and a response
with `SessionID` "s1" and an empty face list. -/
theorem DetectFace_decodes_witness :
    mockJSONText.parse faceReply =
        .ok (JSON.object [(lit "session_id", .string (lit "s1")), (lit "face", .array [])]) ∧
      (sampleClient.DetectFace (mockEnv 200 faceReply)
        (DetectFaceRsp.rspType mockJSONText mockDetectFaceRsp.goSyntax)
        [1, 2, 3] false 0).err = none ∧
      (sampleClient.DetectFace (mockEnv 200 faceReply)
        (DetectFaceRsp.rspType mockJSONText mockDetectFaceRsp.goSyntax)
        [1, 2, 3] false 0).rsp.SessionID = lit "s1" ∧
      (sampleClient.DetectFace (mockEnv 200 faceReply)
        (DetectFaceRsp.rspType mockJSONText mockDetectFaceRsp.goSyntax)
        [1, 2, 3] false 0).rsp.Face.len = 0 :=
  have hsent : Event.send ⟨5 * Second⟩
      (sampleClient.postRequest (mockEnv 200 faceReply) sampleURL sampleBody) ∈
      (sampleClient.DetectFace (mockEnv 200 faceReply)
        (DetectFaceRsp.rspType mockJSONText mockDetectFaceRsp.goSyntax)
        [1, 2, 3] false 0).trace := by
    decide
  have hparse : mockJSONText.parse faceReply =
      .ok (JSON.object [(lit "session_id", .string (lit "s1")), (lit "face", .array [])]) :=
    rfl
  have hsession : boundTo DetectFaceRsp.names (lit "session_id")
      [(lit "session_id", JSON.string (lit "s1")), (lit "face", JSON.array [])]
      (fun j => j = JSON.string (lit "s1")) := by
    refine ⟨⟨_, List.mem_cons_self _ _⟩, ?_⟩
    intro m hm hidx
    simp only [List.mem_cons, List.mem_singleton, List.not_mem_nil, or_false] at hm
    rcases hm with rfl | rfl
    · rfl
    · exact absurd hidx (by decide)
  have hface : boundTo DetectFaceRsp.names (lit "face")
      [(lit "session_id", JSON.string (lit "s1")), (lit "face", JSON.array [])]
      (fun j => ∃ faces, j = JSON.array faces ∧ faces.length = 0) := by
    refine ⟨⟨_, List.mem_cons_of_mem _ (List.mem_cons_self _ _)⟩, ?_⟩
    intro m hm hidx
    simp only [List.mem_cons, List.mem_singleton, List.not_mem_nil, or_false] at hm
    rcases hm with rfl | rfl
    · exact absurd hidx (by decide)
    · exact ⟨[], rfl, rfl⟩
  have hok : ∀ m ∈ [(lit "session_id", JSON.string (lit "s1")), (lit "face", JSON.array [])],
      ∀ r, (DetectFaceRsp.store mockJSONText r m.1 m.2).2 = none := by
    intro m hm r
    simp only [List.mem_cons, List.mem_singleton, List.not_mem_nil, or_false] at hm
    rcases hm with rfl | rfl
    · simp [DetectFaceRsp.store, fieldIndex_session_id, storeString]
    · simp [DetectFaceRsp.store, fieldIndex_face, storeSlice, decodeItems, firstError]
  have h := DetectFace_decodes (mockEnv 200 faceReply) mockJSONText mockDetectFaceRsp.goSyntax
    sampleClient [1, 2, 3] false 0 _ _ faceReply _ (lit "s1") 0 hsent rfl hparse hsession hface
    hok
  ⟨hparse, h.1, h.2.1, h.2.2⟩

/-- C12 as stated fails: the reply body `{"session_id":"s1","face":[],"errorcode":"0"}` is a
JSON object with `session_id` bound to a string and `face` to a list of no face objects, yet
`DetectFace` returns a non-nil error, because the string "0" does not go into the integer
field `ErrorCode`; the response still has `SessionID` "s1" and an empty face list. -/
theorem DetectFace_rejects_string_errorcode :
    mockJSONText.parse faceReplyBadCode =
        .ok (JSON.object [(lit "session_id", .string (lit "s1")), (lit "face", .array []),
          (lit "errorcode", .string (lit "0"))]) ∧
      (sampleClient.DetectFace (mockEnv 200 faceReplyBadCode)
        (DetectFaceRsp.rspType mockJSONText mockDetectFaceRsp.goSyntax)
        [1, 2, 3] false 0).err ≠ none ∧
      (sampleClient.DetectFace (mockEnv 200 faceReplyBadCode)
        (DetectFaceRsp.rspType mockJSONText mockDetectFaceRsp.goSyntax)
        [1, 2, 3] false 0).rsp.SessionID = lit "s1" ∧
      (sampleClient.DetectFace (mockEnv 200 faceReplyBadCode)
        (DetectFaceRsp.rspType mockJSONText mockDetectFaceRsp.goSyntax)
        [1, 2, 3] false 0).rsp.Face.len = 0 := by
  refine ⟨rfl, ?_, ?_, ?_⟩ <;> decide

/-- C15 on the code: for the status-200 reply body `{"name":"Li","phone":"13800138000",
"name_confidence":0.9,"phone_confidence":0.8,"image":"AQID"}`, `NameCardOcr` returns a `nil`
error and a response that holds the phone number only: `Name`, `NameConfidence`,
`PhoneConfidence` and `Image` stay at their zero values, because their `json` tags end in a
space and so none of the keys selects them. With the key "name " the name is stored. -/
theorem NameCardOcr_drops_fields :
    mockJSONText.parse namecardReply =
        .ok (JSON.object [(lit "name", .string (lit "Li")),
          (lit "phone", .string (lit "13800138000")),
          (lit "name_confidence", .number (lit "0.9")),
          (lit "phone_confidence", .number (lit "0.8")), (lit "image", .string (lit "AQID"))]) ∧
      (sampleClient.NameCardOcr (mockEnv 200 namecardReply)
        (NamecardOcrRsp.rspType mockJSONText (fun _ => lit "&youtu.NamecardOcrRsp"))
        [1, 2, 3] 0 false []).err = none ∧
      (sampleClient.NameCardOcr (mockEnv 200 namecardReply)
        (NamecardOcrRsp.rspType mockJSONText (fun _ => lit "&youtu.NamecardOcrRsp"))
        [1, 2, 3] 0 false []).rsp = { Phone := lit "13800138000" } ∧
      fieldIndex NamecardOcrRsp.names (lit "name") = none ∧
      fieldIndex NamecardOcrRsp.names (lit "name_confidence") = none ∧
      fieldIndex NamecardOcrRsp.names (lit "phone_confidence") = none ∧
      fieldIndex NamecardOcrRsp.names (lit "image") = none ∧
      fieldIndex NamecardOcrRsp.names (lit "phone") = some 1 ∧
      (NamecardOcrRsp.store mockJSONText {} (lit "name ") (.string (lit "Li"))).1.Name =
        lit "Li" := by
  refine ⟨rfl, ?_, ?_, ?_, ?_, ?_, ?_, ?_, ?_⟩ <;> decide
end GoSdk
